import Mathlib

/-!
Verification development for the in-page JavaScript overlay modules of the
yujin-ai browser-automation toolkit.

The development shallowly embeds the four injected page scripts:

* the basic element highlighter (`window.elementHighlighter`, first version):
  `highlight` / `removeHighlight` / `removeAllHighlights` over a tracked
  collection of highlight entries;
* the advanced element highlighter (second version): the recursive DOM-tree
  scan `buildDomTree` driven by `findAndHighlightInteractiveElements`, with
  the classification chain `isElementVisible` / `isTopElement` /
  `isInteractiveElement`, per-scan caches and the id-keyed `DOM_HASH_MAP`;
* the photo display overlay (`displayPhoto` metrics panel, `getScoreColor`);
* the research display panel (`displayResearch` thumbnail cards).

DOM trees are explicit data; browser-layout facts that the scripts query
(computed style, bounding rectangles, hit-testing) are carried as fields of
the element data, and JavaScript numbers are modelled as rationals.
String helpers (`lowerStr`, `natToStr`) reimplement ASCII lowercasing and
decimal printing so that all definitions evaluate inside the kernel.
-/

/-- ASCII lowercase of a character, as applied by JavaScript
`toLowerCase()` on tag and class names (tag/class names are ASCII). -/
def lowerChar (c : Char) : Char :=
  if c.toNat ≥ 65 ∧ c.toNat ≤ 90 then Char.ofNat (c.toNat + 32) else c

/-- ASCII lowercase of a string (model of JavaScript `toLowerCase()`). -/
def lowerStr (s : String) : String := String.mk (s.data.map lowerChar)

/-- Decimal digit character. -/
def digitChar (n : Nat) : Char := Char.ofNat (48 + n)

/-- Decimal digits of `n`, most significant first; `fuel` bounds recursion
so the definition is structural and kernel-evaluable. -/
def natDigits : Nat → Nat → List Char
  | 0, _ => []
  | fuel+1, n => if n = 0 then [] else natDigits fuel (n / 10) ++ [digitChar (n % 10)]

/-- Decimal rendering of a natural number (model of JavaScript number
printing for nonnegative integers). -/
def natToStr (n : Nat) : String := if n = 0 then "0" else String.mk (natDigits (n + 1) n)

/-- Decimal rendering of an integer. -/
def intToStr (i : Int) : String :=
  match i with
  | .ofNat n => natToStr n
  | .negSucc n => "-" ++ natToStr (n + 1)

/-- `leadsWith s pat` : `pat` is an initial run of `s` (character lists). -/
def leadsWith : List Char → List Char → Bool
  | _, [] => true
  | [], _ :: _ => false
  | a :: as, b :: bs => a == b && leadsWith as bs

/-- `hasRun s pat` : `pat` occurs contiguously somewhere in `s`. -/
def hasRun : List Char → List Char → Bool
  | [], pat => pat.isEmpty
  | s@(_ :: rest), pat => leadsWith s pat || hasRun rest pat

/-- Substring test (model of JavaScript `String.prototype.includes`). -/
def strContains (s pat : String) : Bool := hasRun s.data pat.data

namespace BasicHighlighter

/-!
Model of the first ("basic") in-page element highlighter
(`window.elementHighlighter` with the `highlights` array).

A page is modelled as the set of CSS selectors that `document.querySelector`
resolves to an element; the geometry of the resolved element only feeds the
overlay's pixel coordinates, which the model does not track.  The module
state tracks the `highlights` array, the ids of the overlay `div`s currently
attached to the document, and the ids of the pending auto-removal timers
(`setTimeout` handles are keyed by the highlight id they would remove).
-/

/-- One entry of the `highlights` array: the resolved id, the selector, and
whether the entry currently holds a (non-null) auto-removal timer. -/
structure BEntry where
  id : String
  selectorStr : String
  timer : Bool
deriving Repr, DecidableEq

/-- The options object merged over the defaults of `highlight`.  `idOpt` is
`none` when the caller did not supply an explicit id, in which case the
auto-generated random id (passed separately) is used. -/
structure BOptions where
  color : String := "rgba(255, 105, 180, 0.5)"
  borderWidth : Nat := 3
  fillOpacity : ℚ := 1/5
  duration : Int := 1000
  pulseEffect : Bool := true
  zIndex : Nat := 10000
  idOpt : Option String := none
deriving Repr, DecidableEq

/-- State of the basic highlighter page: tracked entries, overlay `div` ids
attached to the document, and pending auto-removal timers (by highlight id). -/
structure BState where
  highlights : List BEntry
  docOverlays : List String
  timers : List String
deriving Repr, DecidableEq

/-- The state when the script has just been injected. -/
def emptyState : BState := ⟨[], [], []⟩

/-- Sets `timer` on the first tracked entry with the given id, as
`this.highlights.find(h => h.id === config.id)` does before storing the
`setTimeout` handle on the found entry. -/
def setTimerFirst : List BEntry → String → List BEntry
  | [], _ => []
  | e :: rest, cid =>
    if e.id == cid then { e with timer := true } :: rest
    else e :: setTimerFirst rest cid

/-- `highlight(selector, options)`.  Returns `null` (`none`) when the
selector resolves to no element; otherwise appends an overlay and a tracked
entry under the resolved id and, when `duration > 0`, schedules an
auto-removal timer and records its handle on the first entry with that id.
`autoId` is the auto-generated random id used when the options carry none. -/
def highlight (page : List String) (selector : String) (options : BOptions)
    (autoId : String) (st : BState) : Option String × BState :=
  if !(page.contains selector) then (none, st)
  else
    let cid := options.idOpt.getD autoId
    let st1 : BState :=
      { st with
        docOverlays := st.docOverlays ++ [cid],
        highlights := st.highlights ++ [⟨cid, selector, false⟩] }
    let st2 : BState :=
      if options.duration > 0 then
        { st1 with
          timers := st1.timers ++ [cid],
          highlights := setTimerFirst st1.highlights cid }
      else st1
    (some cid, st2)

/-- Removes the first tracked entry with the given id, returning it and the
remaining list (model of `findIndex` followed by `splice`). -/
def removeFirst : List BEntry → String → Option BEntry × List BEntry
  | [], _ => (none, [])
  | e :: rest, cid =>
    if e.id == cid then (some e, rest)
    else
      let r := removeFirst rest cid
      (r.1, e :: r.2)

/-- `removeHighlight(id)`: clears the found entry's pending timer, detaches
its overlay element, drops the entry, and reports whether one was found. -/
def removeHighlight (cid : String) (st : BState) : Bool × BState :=
  match removeFirst st.highlights cid with
  | (none, _) => (false, st)
  | (some e, rest) =>
    (true,
      { highlights := rest,
        docOverlays := st.docOverlays.erase cid,
        timers := if e.timer then st.timers.erase cid else st.timers })

/-- `removeAllHighlights()`: copies the current ids, removes each, and
returns how many ids were in the copy. -/
def removeAllHighlights (st : BState) : Nat × BState :=
  let highlightIds := st.highlights.map (fun h => h.id)
  let st2 := highlightIds.foldl (fun s i => (removeHighlight i s).2) st
  (highlightIds.length, st2)

/-- Arguments of one `highlight` call: the selector, the options, and the
auto-generated id the call would use if the options carry none. -/
structure HCall where
  selector : String
  options : BOptions
  autoId : String

/-- The id a call resolves to. -/
def resolvedId (c : HCall) : String := c.options.idOpt.getD c.autoId

/-- Runs a sequence of `highlight` calls. -/
def runHighlights (page : List String) (calls : List HCall) (st : BState) : BState :=
  calls.foldl (fun s c => (highlight page c.selector c.options c.autoId s).2) st

/-- One public operation of the basic highlighter. -/
inductive BOp where
  | call (selector : String) (options : BOptions) (autoId : String)
  | rmOne (id : String)
  | rmAll

/-- Applies one public operation to the state. -/
def applyOp (page : List String) (st : BState) : BOp → BState
  | .call sel opts aid => (highlight page sel opts aid st).2
  | .rmOne i => (removeHighlight i st).2
  | .rmAll => (removeAllHighlights st).2

/-- Freshness side condition under which a `highlight` call cannot duplicate
a tracked id: its resolved id is not currently tracked, or its selector does
not resolve.  Removal operations need no condition. -/
def opFresh (page : List String) (st : BState) : BOp → Prop
  | .call sel opts aid =>
      (opts.idOpt.getD aid) ∉ st.highlights.map (fun h => h.id)
        ∨ page.contains sel = false
  | .rmOne _ => True
  | .rmAll => True

end BasicHighlighter

namespace PhotoDisplay

/-!
Model of the metrics panel that `displayPhoto` renders once the image has
loaded (`img.onload`).  JavaScript numbers are modelled as rationals; an
absent argument is `none`.  The guard in the source is
`if (attractivenessScore && metrics)`, i.e. the numeric score is tested for
truthiness (a score of `0` is falsy) and the metrics object for presence.
The panel is modelled structurally: the colour and score of the `<h3>`
heading, and the list of `<p>` metric lines in render order.
-/

/-- The detailed-metrics object; each field is a 0–1 fraction or absent.
The source keys are `symmetry`, `golden_ratio`, `thirds`, `eye_spacing`
(the second is named `golden` here). -/
structure Metrics where
  symmetry : Option ℚ
  golden : Option ℚ
  thirds : Option ℚ
  eyeSpacing : Option ℚ
deriving Repr, DecidableEq

/-- The rendered metrics overlay: heading colour, the score shown in the
heading (absent for the unavailability notice), and the metric lines. -/
structure MetricsPanel where
  headingColor : String
  scoreShown : Option ℚ
  lines : List String
deriving Repr, DecidableEq

/-- `getScoreColor(score)`: green for `score >= 8`, amber for `score >= 6`,
red otherwise. -/
def getScoreColor (score : ℚ) : String :=
  if score ≥ 8 then "#4CAF50"
  else if score ≥ 6 then "#FFC107"
  else "#F44336"

/-- JavaScript `Number.prototype.toFixed(1)` on a nonnegative rational:
the multiple of 1/10 nearest to the value, ties resolved upward, printed
with one digit after the point. -/
def toFixed1 (q : ℚ) : String :=
  let n : Nat := (Int.floor (q * 10 + 1/2)).toNat
  natToStr (n / 10) ++ "." ++ natToStr (n % 10)

/-- One `<p>` line of the metrics panel: the source renders
`label: (value * 100).toFixed(1)%`. -/
def metricLine (label : String) (v : ℚ) : String :=
  label ++ ": " ++ toFixed1 (v * 100) ++ "%"

/-- The notice rendered when the truthiness guard fails:
a red heading reading "Facial analysis unavailable." and no metric lines. -/
def unavailablePanel : MetricsPanel :=
  { headingColor := "red", scoreShown := none, lines := [] }

/-- The metrics overlay built inside `img.onload`.  Mirrors
`if (attractivenessScore && metrics)`: the panel with colour-coded score and
one line per present metric when the score is truthy (present and nonzero)
and the metrics object is present; the unavailability notice otherwise. -/
def renderMetricsOverlay (attractivenessScore : Option ℚ) (metrics : Option Metrics) :
    MetricsPanel :=
  match attractivenessScore, metrics with
  | some s, some m =>
    if s ≠ 0 then
      { headingColor := getScoreColor s,
        scoreShown := some s,
        lines :=
          (match m.symmetry with
           | some v => [metricLine "Symmetry" v]
           | none => []) ++
          (match m.golden with
           | some v => [metricLine "Golden Ratio" v]
           | none => []) ++
          (match m.thirds with
           | some v => [metricLine "Facial Thirds" v]
           | none => []) ++
          (match m.eyeSpacing with
           | some v => [metricLine "Eye Spacing" v]
           | none => []) }
    else unavailablePanel
  | _, _ => unavailablePanel

end PhotoDisplay

namespace ResearchDisplay

/-!
Model of the thumbnail-card grid that `displayResearch` builds from
`data.metadata`.  The source guards the grid with
`if (data.metadata && data.metadata.length > 0)`, creates a card only for
items passing `if (item.thumbnailUrl)` (string truthiness: an absent or
empty URL produces no card), links to `item.url || '#'`, and shows
`Match: ${Math.round(item.likenessScore)}%` only when
`if (item.likenessScore)` is truthy (a score of `0` shows nothing).
-/

/-- One entry of `data.metadata`. -/
structure MetaItem where
  url : Option String
  thumbnailUrl : Option String
  likenessScore : Option ℚ
deriving Repr, DecidableEq

/-- One rendered card of the grid: the link target, the thumbnail source,
and the optional match-score text. -/
structure PhotoCard where
  linkHref : String
  imgSrc : String
  matchText : Option String
deriving Repr, DecidableEq

/-- JavaScript truthiness of an optional string (absent and empty are falsy). -/
def truthyStr : Option String → Bool
  | none => false
  | some s => !(s == "")

/-- JavaScript truthiness of an optional number (absent and zero are falsy). -/
def truthyNum : Option ℚ → Bool
  | none => false
  | some q => !(q == 0)

/-- JavaScript `Math.round`: nearest integer, ties toward positive infinity. -/
def mathRound (q : ℚ) : Int := Int.floor (q + 1/2)

/-- The card produced for one metadata item, or `none` when
`item.thumbnailUrl` is falsy and the item is skipped. -/
def cardForItem (item : MetaItem) : Option PhotoCard :=
  if truthyStr item.thumbnailUrl then
    some
      { linkHref :=
          match item.url with
          | some u => if u == "" then "#" else u
          | none => "#",
        imgSrc := item.thumbnailUrl.getD "",
        matchText :=
          if truthyNum item.likenessScore then
            some ("Match: " ++ intToStr (mathRound (item.likenessScore.getD 0)) ++ "%")
          else none }
  else none

/-- The cards of the grid built by `displayResearch` for the given
metadata (no grid at all when the metadata array is absent or empty). -/
def displayResearchCards (metadata : Option (List MetaItem)) : List PhotoCard :=
  match metadata with
  | none => []
  | some items => if items.isEmpty then [] else items.filterMap cardForItem

end ResearchDisplay

namespace AdvancedHighlighter

/-!
Model of the second ("advanced") in-page element highlighter: the IIFE that
owns `highlightIndex`, `DOM_HASH_MAP`, `ID`, the `DOM_CACHE` WeakMaps and
the fixed-id overlay container, and exposes
`findAndHighlightInteractiveElements`, `removeAllHighlights`,
`isInteractiveElement` and `highlightAllText`.

DOM trees are explicit: an element carries its DOM data (`ElemData`), an
optional attached shadow root (with its child list), an optional accessible
iframe content-document body, and its ordinary child nodes.  Non-element
nodes (text, comments) are collapsed to `other`, which `buildDomTree`
rejects just as the source's `nodeType` check does.

Browser-layout answers are carried on the element:

* `offsetWidth`/`offsetHeight` and the computed `visibility`/`display`
  feed `isElementVisible`;
* `rect` is the `getBoundingClientRect` answer, and `hitTop` the outcome of
  the `elementFromPoint` ancestor walk of `isTopElement` (`none` models an
  exception thrown during hit-testing, which the source treats as topmost);
* `highlightThrows` records whether drawing this element's overlay throws
  (the body of `highlightElement` is wrapped in `try`/`catch`);
* `ref` is the element's object identity, used as the key of the WeakMap
  caches.  A WeakMap is keyed by identity, so a cache hit for an element
  always yields that same element's rectangle/style; the model therefore
  records which elements are cached and returns the element's own value in
  both branches.

`parentIframe` (threaded through the source's recursion) only shifts the
pixel coordinates of drawn overlays, which the model does not track, so it
is omitted here.
-/

/-- Computed-style fields read by `isElementVisible`. -/
structure CStyle where
  visibility : String
  display : String
deriving Repr, DecidableEq

/-- A bounding client rectangle (`left`, `top`, `width`, `height`;
`right = left + width`, `bottom = top + height`). -/
structure Rect where
  left : Int
  top : Int
  width : Int
  height : Int
deriving Repr, DecidableEq

/-- The DOM-visible data of one element node, together with the
browser-layout answers described in the module docstring. -/
structure ElemData where
  ref : Nat
  tagName : String
  idAttr : String
  attributes : List (String × String)
  classList : List String
  onclickHandler : Bool
  draggableProp : Bool
  offsetWidth : Nat
  offsetHeight : Nat
  styleVisibility : String
  styleDisplay : String
  rect : Rect
  hitTop : Option Bool
  highlightThrows : Bool
deriving Repr, DecidableEq

mutual
/-- A DOM node: an element (with optional shadow root and optional
accessible iframe content body) or a non-element node. -/
inductive DomNode : Type where
  | elem (data : ElemData) (shadow : ShadowOpt) (content : ContentOpt) (children : DomForest)
  | other
/-- An element's attached shadow root, if any. -/
inductive ShadowOpt : Type where
  | noShadow
  | withShadow (roots : DomForest)
/-- The content document of an iframe: its body when the same-origin
document is accessible, `noDoc` when access fails (the source catches the
exception) or no document is present. -/
inductive ContentOpt : Type where
  | noDoc
  | withBody (body : DomNode)
/-- A list of sibling DOM nodes. -/
inductive DomForest : Type where
  | nil
  | cons (hd : DomNode) (tl : DomForest)
end

/-- One record of `DOM_HASH_MAP`: the `nodeData` object built per accepted
element.  `children` is initialised to `[]` when the object is created. -/
structure NodeData where
  tagName : String
  xpath : String
  isVisible : Bool
  isTopElement : Option Bool
  isInteractive : Option Bool
  highlightIndex : Option Nat
  children : List Nat
deriving Repr, DecidableEq

/-- The module-scope state of the IIFE: the `highlightIndex` counter, the
`ID.current` counter, `DOM_HASH_MAP` (an insertion-ordered association
list, as JavaScript object keys are), the two `DOM_CACHE` WeakMaps
(recorded as the cached elements' identities), and the overlay container
(`none` when absent from the document, otherwise the labels of the drawn
overlays in insertion order). -/
structure ModuleState where
  highlightIndex : Nat
  idCurrent : Nat
  domHashMap : List (Nat × NodeData)
  rectCache : List Nat
  styleCache : List Nat
  container : Option (List Nat)
deriving Repr, DecidableEq

/-- The module state when the script has just been injected. -/
def initState : ModuleState := ⟨0, 0, [], [], [], none⟩

/-- The fixed id of the overlay container. -/
def HIGHLIGHT_CONTAINER_ID : String := "playwright-highlight-container"

/-- Number of overlay children of the container (0 when absent). -/
def containerLen (st : ModuleState) : Nat := (st.container.getD []).length

/-- `DOM_HASH_MAP[id] = nodeData`: JavaScript object assignment updates an
existing key in place (keeping its position in key order) and appends a new
key at the end. -/
def mapSet (m : List (Nat × NodeData)) (k : Nat) (v : NodeData) : List (Nat × NodeData) :=
  if m.any (fun p => p.1 == k) then
    m.map (fun p => if p.1 == k then (k, v) else p)
  else m ++ [(k, v)]

/-- Sequential `DOM_HASH_MAP` assignments. -/
def writeList (m : List (Nat × NodeData)) (l : List (Nat × NodeData)) : List (Nat × NodeData) :=
  l.foldl (fun acc p => mapSet acc p.1 p.2) m

/-- Adds an element identity to a cache unless it is already recorded
(the state-change a WeakMap `set` after a failed `has` performs). -/
def pushRef (c : List Nat) (r : Nat) : List Nat :=
  if c.contains r then c else c ++ [r]

/-- The element's computed style as read through `getComputedStyle`. -/
def computedStyleOf (e : ElemData) : CStyle := ⟨e.styleVisibility, e.styleDisplay⟩

/-- `getCachedComputedStyle`: consults the per-scan WeakMap and inserts on a
miss.  The WeakMap is keyed by object identity, so the value a hit returns
is necessarily the element's own computed style (see module docstring). -/
def getCachedComputedStyle (e : ElemData) (st : ModuleState) : CStyle × ModuleState :=
  if st.styleCache.contains e.ref then (computedStyleOf e, st)
  else (computedStyleOf e, { st with styleCache := st.styleCache ++ [e.ref] })

/-- `getCachedBoundingRect`: same caching discipline for
`getBoundingClientRect`. -/
def getCachedBoundingRect (e : ElemData) (st : ModuleState) : Rect × ModuleState :=
  if st.rectCache.contains e.ref then (e.rect, st)
  else (e.rect, { st with rectCache := st.rectCache ++ [e.ref] })

/-- `isElementVisible(element)`: nonzero rendered size, not
`visibility: hidden`, not `display: none`.  Reads the style through the
per-scan cache. -/
def isElementVisible (e : ElemData) (st : ModuleState) : Bool × ModuleState :=
  let sc := getCachedComputedStyle e st
  (decide (0 < e.offsetWidth) && decide (0 < e.offsetHeight)
     && !(sc.1.visibility == "hidden") && !(sc.1.display == "none"), sc.2)

/-- `isTopElement(element)`: an element outside the viewport is trivially
topmost; otherwise the ancestor chain of `elementFromPoint` at the
rectangle's centre is searched for the element (`hitTop`; `none` models an
exception, treated as topmost).  Reads the rectangle through the per-scan
cache. -/
def isTopElement (vw vh : Int) (e : ElemData) (st : ModuleState) : Bool × ModuleState :=
  let rc := getCachedBoundingRect e st
  let r := rc.1
  let isInViewport :=
    decide (r.left < vw) && decide (0 < r.left + r.width)
      && decide (r.top < vh) && decide (0 < r.top + r.height)
  if !isInViewport then (true, rc.2)
  else
    match e.hitTop with
    | none => (true, rc.2)
    | some b => (b, rc.2)

/-- The tag names `isInteractiveElement` accepts outright. -/
def interactiveElements : List String :=
  ["a", "button", "details", "embed", "input", "menu", "menuitem",
   "object", "select", "textarea", "canvas", "summary", "dialog"]

/-- The ARIA roles `isInteractiveElement` accepts. -/
def interactiveRoles : List String :=
  ["button", "link", "checkbox", "radio", "tab", "menu", "menuitem",
   "slider", "switch", "textbox", "combobox", "listbox", "option",
   "searchbox", "spinbutton", "scrollbar", "tooltip", "treeitem"]

/-- `element.getAttribute(name)` (`none` for `null`). -/
def getAttr (e : ElemData) (name : String) : Option String :=
  e.attributes.lookup name

/-- `element.hasAttribute(name)`. -/
def hasAttr (e : ElemData) (name : String) : Bool :=
  (e.attributes.lookup name).isSome

/-- The class substrings the class-based check looks for. -/
def interactiveClassRuns : List String :=
  ["button", "btn", "clickable", "interactive", "selectable", "dropdown"]

/-- `isInteractiveElement(element)`: interactive tag name, interactive ARIA
role, `tabindex` other than `"-1"`, a click handler or one of the listed
click/ARIA attributes, `contenteditable="true"`, draggable, or a class name
containing (case-insensitively) one of the interactive substrings.  The
source's `nodeType` guard is vacuous here since `ElemData` only describes
element nodes. -/
def isInteractiveElement (e : ElemData) : Bool :=
  let tagName := lowerStr e.tagName
  let role := getAttr e "role"
  let tabIndex := getAttr e "tabindex"
  if interactiveElements.contains tagName
      || (match role with
          | some r => interactiveRoles.contains (lowerStr r)
          | none => false)
      || (match tabIndex with
          | some t => !(t == "-1")
          | none => false)
      || e.onclickHandler
      || hasAttr e "onclick"
      || hasAttr e "ng-click"
      || hasAttr e "@click"
      || hasAttr e "v-on:click"
      || hasAttr e "aria-expanded"
      || hasAttr e "aria-pressed"
      || hasAttr e "aria-selected"
      || hasAttr e "aria-checked"
      || (getAttr e "contenteditable" == some "true")
      || e.draggableProp
      || (getAttr e "draggable" == some "true")
  then true
  else
    e.classList.any (fun cls =>
      interactiveClassRuns.any (fun run => strContains (lowerStr cls) run))

/-- The tag names `isElementAccepted` always accepts. -/
def alwaysAccept : List String :=
  ["body", "div", "main", "article", "section", "nav", "header", "footer"]

/-- The tag names `isElementAccepted` always rejects. -/
def leafElementDenyList : List String :=
  ["svg", "script", "style", "link", "meta", "noscript", "template"]

/-- `isElementAccepted(element)`: common containers are always accepted and
the deny list is the only hard exclusion. -/
def isElementAccepted (e : ElemData) : Bool :=
  let tagName := lowerStr e.tagName
  if alwaysAccept.contains tagName then true
  else !(leafElementDenyList.contains tagName)

/-- `highlightElement(element, index)`: creates the container on first use,
then draws the overlay and its numeric label and returns `index + 1`; any
exception is caught and the incoming `index` is returned unchanged (the
overlay is modelled as failing after the container exists but before its
children are appended).  The caller in `buildDomTree` discards this return
value. -/
def highlightElement (e : ElemData) (index : Nat) (st : ModuleState) : Nat × ModuleState :=
  let cur := st.container.getD []
  if e.highlightThrows then (index, { st with container := some cur })
  else (index + 1, { st with container := some (cur ++ [index]) })

/-- The visibility → topmost → interactive classification chain of
`buildDomTree` (source lines setting `nodeData.isVisible`,
`nodeData.isTopElement`, `nodeData.isInteractive` and
`nodeData.highlightIndex`), including the `highlightIndex++` and the
`highlightElement` call for interactive elements.  Returns the computed
`(isVisible, isTopElement, isInteractive, highlightIndex)` values. -/
def classifyNode (vw vh : Int) (e : ElemData) (st : ModuleState) :
    (Bool × Option Bool × Option Bool × Option Nat) × ModuleState :=
  let vc := isElementVisible e st
  if vc.1 then
    let tc := isTopElement vw vh e vc.2
    if tc.1 then
      if isInteractiveElement e then
        let hi := tc.2.highlightIndex
        let st3 : ModuleState := { tc.2 with highlightIndex := tc.2.highlightIndex + 1 }
        let hc := highlightElement e hi st3
        ((true, some tc.1, some true, some hi), hc.2)
      else ((true, some tc.1, some false, none), tc.2)
    else ((true, some tc.1, none, none), tc.2)
  else ((false, none, none, none), vc.2)

/-- One segment of `getXPathTree`: the lowercased tag name, with a
1-based positional predicate when the element has preceding element
siblings of the same node name. -/
def xpathSegment (tag : String) (sameTagBefore : Nat) : String :=
  lowerStr tag ++ (if sameTagBefore > 0 then "[" ++ natToStr (sameTagBefore + 1) ++ "]" else "")

/-- Joins a parent path and a child segment with `/` (an empty parent path
means the child is a boundary root and its segment stands alone). -/
def joinPath (p seg : String) : String :=
  if p == "" then seg else p ++ "/" ++ seg

mutual
/-- `buildDomTree(node)`: skips the overlay container and non-element
nodes, rejects non-accepted elements, classifies the element
(`classifyNode`), recurses into the iframe content body, the shadow-root
children, or the ordinary element children, and finally stores the
element's `nodeData` in `DOM_HASH_MAP` under the next `ID.current` value.

`xp` is the element's XPath as `getXPathTree(node, true)` computes it by
walking the parent chain up to the nearest shadow-root/iframe boundary;
the embedding passes the path down the recursion instead of walking up
(the start node's path is supplied by the caller, each ordinary child
extends its parent's path by its `xpathSegment`, a shadow-root child's own
segment is excluded by the boundary break so its path is empty, and an
iframe content body's walk up its own document yields `html/body`). -/
def buildDomTree (vw vh : Int) : DomNode → String → ModuleState → Option Nat × ModuleState
  | .other, _, st => (none, st)
  | .elem d sh ct cs, xp, st =>
    if d.idAttr == HIGHLIGHT_CONTAINER_ID then (none, st)
    else if !(isElementAccepted d) then (none, st)
    else
      let cres := classifyNode vw vh d st
      let flags := cres.1
      let st1 :=
        if lowerStr d.tagName == "iframe" then buildDomContent vw vh ct cres.2
        else
          match sh with
          | .withShadow roots => buildDomShadow vw vh roots cres.2
          | .noShadow => buildDomChildren vw vh cs xp [] cres.2
      let nodeData : NodeData :=
        { tagName := lowerStr d.tagName, xpath := xp, isVisible := flags.1,
          isTopElement := flags.2.1, isInteractive := flags.2.2.1,
          highlightIndex := flags.2.2.2, children := [] }
      let id := st1.idCurrent
      (some id,
        { st1 with
          idCurrent := st1.idCurrent + 1,
          domHashMap := mapSet st1.domHashMap id nodeData })
/-- The iframe branch of `buildDomTree`: descend into the accessible
content document's body (whose XPath within its own document is
`html/body`); a missing or inaccessible document — the source catches the
cross-origin exception — leaves the state unchanged. -/
def buildDomContent (vw vh : Int) : ContentOpt → ModuleState → ModuleState
  | .noDoc, st => st
  | .withBody b, st => (buildDomTree vw vh b "html/body" st).2
/-- The shadow-root loop of `buildDomTree`: every child node of the shadow
root is passed to `buildDomTree` (non-elements bail out there); a shadow
child's own XPath is empty, since `getXPathTree` breaks at a parent that is
a `ShadowRoot` before emitting the child's segment. -/
def buildDomShadow (vw vh : Int) : DomForest → ModuleState → ModuleState
  | .nil, st => st
  | .cons c rest, st =>
    let st1 := (buildDomTree vw vh c "" st).2
    buildDomShadow vw vh rest st1
/-- The ordinary-children loop of `buildDomTree`: only element children
recurse; `seen` collects the tag names of the element siblings already
passed, so each child's `xpathSegment` counts its preceding same-name
element siblings as `getXPathTree` does. -/
def buildDomChildren (vw vh : Int) :
    DomForest → String → List String → ModuleState → ModuleState
  | .nil, _, _, st => st
  | .cons c rest, parentPath, seen, st =>
    match c with
    | .other => buildDomChildren vw vh rest parentPath seen st
    | .elem d sh2 ct2 cs2 =>
      let seg := xpathSegment d.tagName (seen.count d.tagName)
      let st1 := (buildDomTree vw vh (.elem d sh2 ct2 cs2) (joinPath parentPath seg) st).2
      buildDomChildren vw vh rest parentPath (seen ++ [d.tagName]) st1
end

/-- The value `isElementVisible` computes, as a pure predicate (the cache
only records which elements were queried; see `isElementVisible_eq`). -/
def visiblePure (e : ElemData) : Bool :=
  decide (0 < e.offsetWidth) && decide (0 < e.offsetHeight)
    && !(e.styleVisibility == "hidden") && !(e.styleDisplay == "none")

/-- The value `isTopElement` computes, as a pure predicate. -/
def topPure (vw vh : Int) (e : ElemData) : Bool :=
  let r := e.rect
  let isInViewport :=
    decide (r.left < vw) && decide (0 < r.left + r.width)
      && decide (r.top < vh) && decide (0 < r.top + r.height)
  if !isInViewport then true
  else
    match e.hitTop with
    | none => true
    | some b => b

/-- Whether the classification chain reaches `highlightIndex++` for this
element: visible, topmost and interactive. -/
def selfInteractive (vw vh : Int) (e : ElemData) : Bool :=
  visiblePure e && topPure vw vh e && isInteractiveElement e

/-- Whether this element additionally gets its overlay drawn (its
`highlightElement` call does not throw). -/
def selfDrawn (vw vh : Int) (e : ElemData) : Bool :=
  selfInteractive vw vh e && !e.highlightThrows

/-- The `(isTopElement, isInteractive, highlightIndex)` triple the
classification chain stores on `nodeData`, given the `highlightIndex`
counter value `h0` at the element. -/
def classifyFlags (vw vh : Int) (e : ElemData) (h0 : Nat) :
    Option Bool × Option Bool × Option Nat :=
  if visiblePure e then
    if topPure vw vh e then
      if isInteractiveElement e then (some true, some true, some h0)
      else (some true, some false, none)
    else (some false, none, none)
  else (none, none, none)

/-- Whether `buildDomTree` rejects this element outright (the overlay
container's id, or an element the accept filter rejects). -/
def skipElem (d : ElemData) : Bool :=
  d.idAttr == HIGHLIGHT_CONTAINER_ID || !(isElementAccepted d)

mutual
/-- Number of elements the scan of this node classifies interactive (each
of which advances the `highlightIndex` counter). -/
def cntI (vw vh : Int) : DomNode → Nat
  | .other => 0
  | .elem d sh ct cs =>
    if skipElem d then 0
    else
      (if selfInteractive vw vh d then 1 else 0)
        + (if lowerStr d.tagName == "iframe" then cntIContent vw vh ct
           else
             match sh with
             | .withShadow roots => cntIList vw vh roots
             | .noShadow => cntIList vw vh cs)
/-- `cntI` of an iframe's content body. -/
def cntIContent (vw vh : Int) : ContentOpt → Nat
  | .noDoc => 0
  | .withBody b => cntI vw vh b
/-- `cntI` over a node list. -/
def cntIList (vw vh : Int) : DomForest → Nat
  | .nil => 0
  | .cons c rest => cntI vw vh c + cntIList vw vh rest
end

mutual
/-- Number of elements the scan of this node classifies interactive and
draws without an exception (each of which appends one overlay to the
container). -/
def cntSucc (vw vh : Int) : DomNode → Nat
  | .other => 0
  | .elem d sh ct cs =>
    if skipElem d then 0
    else
      (if selfDrawn vw vh d then 1 else 0)
        + (if lowerStr d.tagName == "iframe" then cntSuccContent vw vh ct
           else
             match sh with
             | .withShadow roots => cntSuccList vw vh roots
             | .noShadow => cntSuccList vw vh cs)
/-- `cntSucc` of an iframe's content body. -/
def cntSuccContent (vw vh : Int) : ContentOpt → Nat
  | .noDoc => 0
  | .withBody b => cntSucc vw vh b
/-- `cntSucc` over a node list. -/
def cntSuccList (vw vh : Int) : DomForest → Nat
  | .nil => 0
  | .cons c rest => cntSucc vw vh c + cntSuccList vw vh rest
end

mutual
/-- Number of elements the scan of this node accepts (each of which gets a
`DOM_HASH_MAP` record under the next `ID.current` value). -/
def cntA : DomNode → Nat
  | .other => 0
  | .elem d sh ct cs =>
    if skipElem d then 0
    else
      1 + (if lowerStr d.tagName == "iframe" then cntAContent ct
           else
             match sh with
             | .withShadow roots => cntAList roots
             | .noShadow => cntAList cs)
/-- `cntA` of an iframe's content body. -/
def cntAContent : ContentOpt → Nat
  | .noDoc => 0
  | .withBody b => cntA b
/-- `cntA` over a node list. -/
def cntAList : DomForest → Nat
  | .nil => 0
  | .cons c rest => cntA c + cntAList rest
end

mutual
/-- The `DOM_HASH_MAP` assignments the scan of this node performs, in
chronological order, when it starts with `highlightIndex = h0` and
`ID.current = id0` and the node's XPath is `xp`.  Children are written
before the element itself, and the keys are consecutive from `id0`. -/
def recs (vw vh : Int) : DomNode → String → Nat → Nat → List (Nat × NodeData)
  | .other, _, _, _ => []
  | .elem d sh ct cs, xp, h0, id0 =>
    if skipElem d then []
    else
      let selfI : Nat := if selfInteractive vw vh d then 1 else 0
      let childPart :=
        if lowerStr d.tagName == "iframe" then recsContent vw vh ct (h0 + selfI) id0
        else
          match sh with
          | .withShadow roots => recsShadow vw vh roots (h0 + selfI) id0
          | .noShadow => recsChildren vw vh cs xp [] (h0 + selfI) id0
      let flags := classifyFlags vw vh d h0
      childPart ++
        [(id0 + childPart.length,
          { tagName := lowerStr d.tagName, xpath := xp, isVisible := visiblePure d,
            isTopElement := flags.1, isInteractive := flags.2.1,
            highlightIndex := flags.2.2, children := [] })]
/-- `recs` of an iframe's content body. -/
def recsContent (vw vh : Int) : ContentOpt → Nat → Nat → List (Nat × NodeData)
  | .noDoc, _, _ => []
  | .withBody b, h0, id0 => recs vw vh b "html/body" h0 id0
/-- `recs` over shadow-root children (their own paths are empty). -/
def recsShadow (vw vh : Int) : DomForest → Nat → Nat → List (Nat × NodeData)
  | .nil, _, _ => []
  | .cons c rest, h0, id0 =>
    let r := recs vw vh c "" h0 id0
    r ++ recsShadow vw vh rest (h0 + cntI vw vh c) (id0 + r.length)
/-- `recs` over ordinary element children, with the same sibling-counting
as `buildDomChildren`. -/
def recsChildren (vw vh : Int) :
    DomForest → String → List String → Nat → Nat → List (Nat × NodeData)
  | .nil, _, _, _, _ => []
  | .cons c rest, parentPath, seen, h0, id0 =>
    match c with
    | .other => recsChildren vw vh rest parentPath seen h0 id0
    | .elem d sh2 ct2 cs2 =>
      let seg := xpathSegment d.tagName (seen.count d.tagName)
      let r := recs vw vh (.elem d sh2 ct2 cs2) (joinPath parentPath seg) h0 id0
      r ++ recsChildren vw vh rest parentPath (seen ++ [d.tagName])
        (h0 + cntI vw vh (.elem d sh2 ct2 cs2)) (id0 + r.length)
end

/-- `removeAllHighlights()` (advanced version): removes the overlay
container, and with it every drawn overlay, when it is present. -/
def removeAllHighlights (st : ModuleState) : ModuleState :=
  { st with container := none }

/-- The options object of `findAndHighlightInteractiveElements`, merged
over its defaults.  `doHighlightElements`, `focusHighlightIndex` and
`viewportExpansion` are merged into `config` but never read afterwards. -/
structure HighlightOptions where
  doHighlightElements : Bool := true
  focusHighlightIndex : Int := -1
  viewportExpansion : Int := 0
  parentSelector : Option String := none
deriving Repr, DecidableEq

/-- A page as the scan sees it: the viewport size, the document body, and
the `querySelector` table used to resolve `parentSelector` (each resolvable
selector maps to a node of the page and that node's boundary XPath). -/
structure Page where
  vw : Int
  vh : Int
  body : DomNode
  selectors : List (String × DomNode × String)

/-- The start node of a scan: the element resolved from `parentSelector`
when one is supplied and found, otherwise `document.body` (whose XPath,
walking up to the document root, is `html/body`). -/
def startOf (page : Page) (options : HighlightOptions) : DomNode × String :=
  match options.parentSelector with
  | some sel =>
    match page.selectors.lookup sel with
    | some se => se
    | none => (page.body, "html/body")
  | none => (page.body, "html/body")

/-- `findAndHighlightInteractiveElements(options)`: resets the per-scan
counters and caches, removes any existing overlay container, resolves the
start node, runs `buildDomTree` from it, and returns the final
`highlightIndex`. -/
def findAndHighlightInteractiveElements (page : Page) (options : HighlightOptions)
    (st : ModuleState) : Nat × ModuleState :=
  let st1 : ModuleState :=
    { st with highlightIndex := 0, idCurrent := 0, rectCache := [], styleCache := [] }
  let st2 := removeAllHighlights st1
  let start := startOf page options
  let st3 := (buildDomTree page.vw page.vh start.1 start.2 st2).2
  (st3.highlightIndex, st3)

/-- The `DOM_HASH_MAP` assignments one scan performs, in chronological
order: `buildDomTree` starts from the resolved start node with both
counters at 0. -/
def scanRecords (page : Page) (options : HighlightOptions) : List (Nat × NodeData) :=
  recs page.vw page.vh (startOf page options).1 (startOf page options).2 0 0

/-- Characterisation of one `buildDomTree` call: how the scan of `n`
advances the two counters, what it writes into `DOM_HASH_MAP`, and how many
overlays it appends to the container. -/
def nodeP (vw vh : Int) (n : DomNode) : Prop :=
  ∀ (xp : String) (st : ModuleState),
    ((buildDomTree vw vh n xp st).2.highlightIndex = st.highlightIndex + cntI vw vh n)
    ∧ ((buildDomTree vw vh n xp st).2.idCurrent = st.idCurrent + cntA n)
    ∧ ((buildDomTree vw vh n xp st).2.domHashMap
        = writeList st.domHashMap (recs vw vh n xp st.highlightIndex st.idCurrent))
    ∧ (containerLen (buildDomTree vw vh n xp st).2 = containerLen st + cntSucc vw vh n)

/-- `nodeP` for the iframe-content walker. -/
def contentP (vw vh : Int) (ct : ContentOpt) : Prop :=
  ∀ st : ModuleState,
    ((buildDomContent vw vh ct st).highlightIndex = st.highlightIndex + cntIContent vw vh ct)
    ∧ ((buildDomContent vw vh ct st).idCurrent = st.idCurrent + cntAContent ct)
    ∧ ((buildDomContent vw vh ct st).domHashMap
        = writeList st.domHashMap (recsContent vw vh ct st.highlightIndex st.idCurrent))
    ∧ (containerLen (buildDomContent vw vh ct st) = containerLen st + cntSuccContent vw vh ct)

/-- `nodeP` for the two forest walkers (shadow-root children and ordinary
element children). -/
def forestP (vw vh : Int) (f : DomForest) : Prop :=
  (∀ st : ModuleState,
    ((buildDomShadow vw vh f st).highlightIndex = st.highlightIndex + cntIList vw vh f)
    ∧ ((buildDomShadow vw vh f st).idCurrent = st.idCurrent + cntAList f)
    ∧ ((buildDomShadow vw vh f st).domHashMap
        = writeList st.domHashMap (recsShadow vw vh f st.highlightIndex st.idCurrent))
    ∧ (containerLen (buildDomShadow vw vh f st) = containerLen st + cntSuccList vw vh f))
  ∧ (∀ (pp : String) (seen : List String) (st : ModuleState),
    ((buildDomChildren vw vh f pp seen st).highlightIndex = st.highlightIndex + cntIList vw vh f)
    ∧ ((buildDomChildren vw vh f pp seen st).idCurrent = st.idCurrent + cntAList f)
    ∧ ((buildDomChildren vw vh f pp seen st).domHashMap
        = writeList st.domHashMap (recsChildren vw vh f pp seen st.highlightIndex st.idCurrent))
    ∧ (containerLen (buildDomChildren vw vh f pp seen st) = containerLen st + cntSuccList vw vh f))

/-- Glue motive for `ShadowOpt` in the mutual structural induction. -/
def shadowP (vw vh : Int) : ShadowOpt → Prop
  | .noShadow => True
  | .withShadow roots => forestP vw vh roots

/-- Pure facts about the record list a scan writes: its keys are the
consecutive ids from `id0`, every written record has an empty `children`
field, and the highlight indices stored across the records are exactly the
interval starting at `h0`. -/
def recsNodeP (vw vh : Int) (n : DomNode) : Prop :=
  ∀ (xp : String) (h0 id0 : Nat),
    ((recs vw vh n xp h0 id0).map Prod.fst = List.range' id0 (cntA n))
    ∧ (∀ p ∈ recs vw vh n xp h0 id0, p.2.children = ([] : List Nat))
    ∧ List.Perm ((recs vw vh n xp h0 id0).filterMap (fun p => p.2.highlightIndex))
        (List.range' h0 (cntI vw vh n))

/-- `recsNodeP` for the iframe-content record list. -/
def recsContentP (vw vh : Int) (ct : ContentOpt) : Prop :=
  ∀ (h0 id0 : Nat),
    ((recsContent vw vh ct h0 id0).map Prod.fst = List.range' id0 (cntAContent ct))
    ∧ (∀ p ∈ recsContent vw vh ct h0 id0, p.2.children = ([] : List Nat))
    ∧ List.Perm ((recsContent vw vh ct h0 id0).filterMap (fun p => p.2.highlightIndex))
        (List.range' h0 (cntIContent vw vh ct))

/-- `recsNodeP` for the two forest record lists. -/
def recsForestP (vw vh : Int) (f : DomForest) : Prop :=
  (∀ (h0 id0 : Nat),
    ((recsShadow vw vh f h0 id0).map Prod.fst = List.range' id0 (cntAList f))
    ∧ (∀ p ∈ recsShadow vw vh f h0 id0, p.2.children = ([] : List Nat))
    ∧ List.Perm ((recsShadow vw vh f h0 id0).filterMap (fun p => p.2.highlightIndex))
        (List.range' h0 (cntIList vw vh f)))
  ∧ (∀ (pp : String) (seen : List String) (h0 id0 : Nat),
    ((recsChildren vw vh f pp seen h0 id0).map Prod.fst = List.range' id0 (cntAList f))
    ∧ (∀ p ∈ recsChildren vw vh f pp seen h0 id0, p.2.children = ([] : List Nat))
    ∧ List.Perm ((recsChildren vw vh f pp seen h0 id0).filterMap (fun p => p.2.highlightIndex))
        (List.range' h0 (cntIList vw vh f)))

/-- Glue motive for `ShadowOpt` in the record-list induction. -/
def recsShadowP (vw vh : Int) : ShadowOpt → Prop
  | .noShadow => True
  | .withShadow roots => recsForestP vw vh roots

/-- A visible, topmost, benign element of the given tag: unit-sized, inside
the viewport, hit-testing answers "topmost", no interactive markers, and
drawing its overlay does not throw. -/
def sampleElem (tag : String) (ref : Nat) : ElemData :=
  { ref := ref, tagName := tag, idAttr := "", attributes := [], classList := [],
    onclickHandler := false, draggableProp := false, offsetWidth := 10,
    offsetHeight := 10, styleVisibility := "visible", styleDisplay := "block",
    rect := ⟨0, 0, 10, 10⟩, hitTop := some true, highlightThrows := false }

/-- The default options object (no overrides). -/
def defaultOptions : HighlightOptions := {}

/-- A page whose body contains a single visible interactive `button` whose
overlay drawing throws. -/
def pageThrowingButton : Page :=
  { vw := 100, vh := 100,
    body := .elem (sampleElem "body" 0) .noShadow .noDoc
      (.cons (.elem { sampleElem "button" 1 with highlightThrows := true }
        .noShadow .noDoc .nil) .nil),
    selectors := [] }

/-- A page whose body contains a single accepted `div` child. -/
def pageBodyWithDiv : Page :=
  { vw := 100, vh := 100,
    body := .elem (sampleElem "body" 0) .noShadow .noDoc
      (.cons (.elem (sampleElem "div" 1) .noShadow .noDoc .nil) .nil),
    selectors := [] }

/-- A page whose body has no children. -/
def pageBodyOnly : Page :=
  { vw := 100, vh := 100,
    body := .elem (sampleElem "body" 0) .noShadow .noDoc .nil,
    selectors := [] }

end AdvancedHighlighter

namespace BasicHighlighter

theorem setTimerFirst_map_id (cid : String) (l : List BEntry) :
    (setTimerFirst l cid).map (fun h => h.id) = l.map (fun h => h.id) := by
  induction l with
  | nil => rfl
  | cons e rest ih =>
    unfold setTimerFirst
    split
    · simp
    · simpa using ih

theorem setTimerFirst_append_fresh (l : List BEntry) (cid sel : String) (b : Bool)
    (h : cid ∉ l.map (fun h => h.id)) :
    setTimerFirst (l ++ [⟨cid, sel, b⟩]) cid = l ++ [⟨cid, sel, true⟩] := by
  induction l with
  | nil =>
    show setTimerFirst [⟨cid, sel, b⟩] cid = [⟨cid, sel, true⟩]
    unfold setTimerFirst
    rw [if_pos (by simp)]
  | cons e rest ih =>
    simp only [List.map_cons, List.mem_cons, not_or] at h
    simp only [List.cons_append]
    unfold setTimerFirst
    have hne : ¬ (e.id == cid) = true := by
      simp only [beq_iff_eq]
      exact fun hh => h.1 hh.symm
    rw [if_neg hne]
    rw [ih h.2]

theorem removeFirst_sublist (cid : String) (l : List BEntry) :
    (removeFirst l cid).2.Sublist l := by
  induction l with
  | nil => exact List.Sublist.refl []
  | cons e rest ih =>
    unfold removeFirst
    split
    · exact List.sublist_cons_self e rest
    · exact List.Sublist.cons₂ e ih

theorem removeHighlight_nodup (cid : String) (st : BState)
    (h : (st.highlights.map (fun h => h.id)).Nodup) :
    (((removeHighlight cid st).2.highlights).map (fun h => h.id)).Nodup := by
  rcases hr : removeFirst st.highlights cid with ⟨fnd, rest⟩
  have hsub : rest.Sublist st.highlights := by
    have := removeFirst_sublist cid st.highlights
    rw [hr] at this; exact this
  unfold removeHighlight
  rw [hr]
  cases fnd with
  | none => simpa using h
  | some e => exact List.Nodup.sublist (List.Sublist.map _ hsub) h

theorem foldRemove_nodup (ids : List String) : ∀ st : BState,
    (st.highlights.map (fun h => h.id)).Nodup →
    (((ids.foldl (fun s i => (removeHighlight i s).2) st).highlights).map (fun h => h.id)).Nodup := by
  induction ids with
  | nil => intro st h; simpa using h
  | cons i rest ih =>
    intro st h
    simp only [List.foldl_cons]
    exact ih _ (removeHighlight_nodup i st h)

/-- C6 (amended claim): the tracked ids stay pairwise distinct under every
public operation, provided each `highlight` call's resolved id (explicit or
auto-generated) is not already tracked when the call is made; the source
performs no duplicate check of its own, so a `highlight` call whose options
supply an already-tracked explicit id does break uniqueness (see the
counterexample). -/
theorem tracked_ids_stay_unique (page : List String) (st : BState) (op : BOp)
    (hnd : (st.highlights.map (fun h => h.id)).Nodup)
    (hop : opFresh page st op) :
    (((applyOp page st op).highlights).map (fun h => h.id)).Nodup := by
  cases op with
  | rmOne i => exact removeHighlight_nodup i st hnd
  | rmAll =>
    unfold applyOp removeAllHighlights
    exact foldRemove_nodup _ st hnd
  | call sel opts aid =>
    unfold applyOp highlight
    by_cases hsel : page.contains sel
    · have hfresh : (opts.idOpt.getD aid) ∉ st.highlights.map (fun h => h.id) := by
        rcases hop with h1 | h2
        · exact h1
        · rw [hsel] at h2; cases h2
      simp only [hsel, Bool.not_true, Bool.false_eq_true, if_false]
      split
      · simp only [setTimerFirst_map_id, List.map_append, List.map_cons, List.map_nil]
        simpa [List.nodup_append] using ⟨hnd, by simpa [eq_comm] using hfresh⟩
      · simp only [List.map_append, List.map_cons, List.map_nil]
        simpa [List.nodup_append] using ⟨hnd, by simpa [eq_comm] using hfresh⟩
    · simp only [Bool.not_eq_true] at hsel
      simp only [hsel, Bool.not_false, if_true]
      exact hnd

/-- C6 (counterexample): two `highlight` calls that both supply the explicit
id `"a"` on a selector that resolves leave two tracked entries with the same
id at the same time, violating the uniqueness invariant as stated. -/
theorem explicit_duplicate_ids_tracked :
    ¬ (((applyOp ["x"]
          (applyOp ["x"] emptyState (.call "x" { idOpt := some "a" } "auto1"))
          (.call "x" { idOpt := some "a" } "auto2")).highlights).map (fun h => h.id)).Nodup := by
  decide

/-- C6 witness: the amended theorem at a concrete fresh call. -/
theorem tracked_ids_stay_unique_witness :
    ((emptyState.highlights.map (fun h => h.id)).Nodup
      ∧ opFresh ["x"] emptyState (.call "x" { idOpt := some "a" } "auto1"))
    ∧ (((applyOp ["x"] emptyState (.call "x" { idOpt := some "a" } "auto1")).highlights).map
        (fun h => h.id)).Nodup :=
  ⟨⟨by decide, Or.inl (by decide)⟩,
    tracked_ids_stay_unique ["x"] emptyState (.call "x" { idOpt := some "a" } "auto1")
      (by decide) (Or.inl (by decide))⟩

/-- C8: a `highlight` call whose selector matches no element returns an
absent result and changes nothing: no overlay element is created and no
entry is added to the tracked collection. -/
theorem highlight_no_match_returns_none (page : List String) (selector : String)
    (options : BOptions) (autoId : String) (st : BState)
    (h : page.contains selector = false) :
    highlight page selector options autoId st = (none, st) := by
  unfold highlight
  rw [h]
  rfl

/-- C8 witness: the theorem at a concrete missing selector. -/
theorem highlight_no_match_returns_none_witness :
    (["#present"] : List String).contains "#absent" = false
    ∧ highlight ["#present"] "#absent" {} "auto" emptyState = (none, emptyState) :=
  ⟨by decide, highlight_no_match_returns_none ["#present"] "#absent" {} "auto" emptyState (by decide)⟩

theorem highlight_success_parts (page : List String) (sel : String) (o : BOptions)
    (aid : String) (st : BState) (hsel : page.contains sel = true) :
    ((highlight page sel o aid st).2.highlights.map (fun h => h.id)
        = st.highlights.map (fun h => h.id) ++ [o.idOpt.getD aid])
    ∧ ((highlight page sel o aid st).2.docOverlays
        = st.docOverlays ++ [o.idOpt.getD aid])
    ∧ ((highlight page sel o aid st).2.highlights.length = st.highlights.length + 1) := by
  unfold highlight
  rw [hsel]
  simp only [Bool.not_true, Bool.false_eq_true, if_false]
  split
  · refine ⟨?_, rfl, ?_⟩
    · simp [setTimerFirst_map_id]
    · have := congrArg List.length (setTimerFirst_map_id (o.idOpt.getD aid)
        (st.highlights ++ [⟨o.idOpt.getD aid, sel, false⟩]))
      simpa using this
  · refine ⟨by simp, rfl, by simp⟩

theorem highlight_success_state (page : List String) (sel : String) (o : BOptions)
    (aid : String) (st : BState) (hsel : page.contains sel = true)
    (hfresh : (o.idOpt.getD aid) ∉ st.highlights.map (fun h => h.id)) :
    (highlight page sel o aid st).2 =
      { highlights := st.highlights ++ [⟨o.idOpt.getD aid, sel, decide (o.duration > 0)⟩],
        docOverlays := st.docOverlays ++ [o.idOpt.getD aid],
        timers := if o.duration > 0 then st.timers ++ [o.idOpt.getD aid] else st.timers } := by
  unfold highlight
  rw [hsel]
  simp only [Bool.not_true, Bool.false_eq_true, if_false]
  by_cases hd : o.duration > 0
  · rw [if_pos hd, if_pos hd]
    have hset := setTimerFirst_append_fresh st.highlights (o.idOpt.getD aid) sel false hfresh
    simp only [hset]
    simp [hd]
  · rw [if_neg hd, if_neg hd]
    simp [hd]

theorem runHighlights_inv2 (page : List String) (calls : List HCall) : ∀ st : BState,
    (∀ c ∈ calls, page.contains c.selector = true) →
    st.docOverlays = st.highlights.map (fun h => h.id) →
    ((runHighlights page calls st).docOverlays
        = (runHighlights page calls st).highlights.map (fun h => h.id))
    ∧ (runHighlights page calls st).highlights.length = st.highlights.length + calls.length := by
  induction calls with
  | nil => intro st _ hinv; simpa [runHighlights] using hinv
  | cons c rest ih =>
    intro st hall hinv
    have hc : page.contains c.selector = true := hall c (by simp)
    have hparts := highlight_success_parts page c.selector c.options c.autoId st hc
    have hrw : runHighlights page (c :: rest) st
        = runHighlights page rest (highlight page c.selector c.options c.autoId st).2 := by
      simp [runHighlights]
    rw [hrw]
    have hinv2 : (highlight page c.selector c.options c.autoId st).2.docOverlays
        = (highlight page c.selector c.options c.autoId st).2.highlights.map (fun h => h.id) := by
      rw [hparts.1, hparts.2.1, hinv]
    have := ih _ (fun d hd => hall d (by simp [hd])) hinv2
    refine ⟨this.1, ?_⟩
    rw [this.2, hparts.2.2]
    simp only [List.length_cons]
    omega

theorem runHighlights_inv_full (page : List String) (calls : List HCall) : ∀ st : BState,
    (∀ c ∈ calls, page.contains c.selector = true) →
    st.docOverlays = st.highlights.map (fun h => h.id) →
    st.timers = (st.highlights.filter (fun h => h.timer)).map (fun h => h.id) →
    ((st.highlights.map (fun h => h.id)) ++ calls.map resolvedId).Nodup →
    ((runHighlights page calls st).docOverlays
        = (runHighlights page calls st).highlights.map (fun h => h.id))
    ∧ ((runHighlights page calls st).timers
        = ((runHighlights page calls st).highlights.filter (fun h => h.timer)).map (fun h => h.id))
    ∧ ((runHighlights page calls st).highlights.map (fun h => h.id)).Nodup := by
  induction calls with
  | nil =>
    intro st _ h1 h2 h3
    refine ⟨by simpa [runHighlights] using h1, by simpa [runHighlights] using h2, ?_⟩
    simp only [runHighlights, List.foldl_nil]
    simpa using h3
  | cons c rest ih =>
    intro st hall h1 h2 h3
    have hc : page.contains c.selector = true := hall c (by simp)
    have hfresh : resolvedId c ∉ st.highlights.map (fun h => h.id) := by
      have hdisj := (List.nodup_append.mp h3).2.2
      intro hmem
      exact hdisj hmem (by simp [resolvedId])
    have hst := highlight_success_state page c.selector c.options c.autoId st hc hfresh
    have hrw : runHighlights page (c :: rest) st
        = runHighlights page rest (highlight page c.selector c.options c.autoId st).2 := by
      simp [runHighlights]
    rw [hrw, hst]
    apply ih
    · exact fun d hd => hall d (by simp [hd])
    · simp [h1]
    · by_cases hd : c.options.duration > 0
      · simp [hd, List.filter_append, h2, resolvedId]
      · simp [hd, List.filter_append, h2]
    · simp only [List.map_append, List.map_cons, List.map_nil]
      have : (st.highlights.map (fun h => h.id) ++ [resolvedId c]) ++ rest.map resolvedId
          = st.highlights.map (fun h => h.id) ++ (resolvedId c :: rest.map resolvedId) := by
        simp
      rw [show c.options.idOpt.getD c.autoId = resolvedId c from rfl, this]
      simpa using h3

theorem foldRemove_step (e : BEntry) (rest : List BEntry) (doc tm : List String) :
    (removeHighlight e.id ⟨e :: rest, e.id :: doc, tm⟩).2
      = ⟨rest, doc, if e.timer then tm.erase e.id else tm⟩ := by
  unfold removeHighlight removeFirst
  rw [if_pos (by simp)]
  simp [List.erase_cons_head]

theorem foldRemove_basic (hl : List BEntry) : ∀ tm : List String,
    ((((hl.map (fun h => h.id)).foldl (fun s i => (removeHighlight i s).2)
        ⟨hl, hl.map (fun h => h.id), tm⟩).highlights = [])
    ∧ (((hl.map (fun h => h.id)).foldl (fun s i => (removeHighlight i s).2)
        ⟨hl, hl.map (fun h => h.id), tm⟩).docOverlays = [])) := by
  induction hl with
  | nil => intro tm; exact ⟨rfl, rfl⟩
  | cons e rest ih =>
    intro tm
    simp only [List.map_cons, List.foldl_cons]
    rw [foldRemove_step e rest (rest.map (fun h => h.id)) tm]
    exact ih _

theorem foldRemove_full (hl : List BEntry) : ∀ tm : List String,
    tm = (hl.filter (fun h => h.timer)).map (fun h => h.id) →
    (hl.map (fun h => h.id)).Nodup →
    ((hl.map (fun h => h.id)).foldl (fun s i => (removeHighlight i s).2)
        ⟨hl, hl.map (fun h => h.id), tm⟩) = ⟨[], [], []⟩ := by
  induction hl with
  | nil => intro tm h _; simp [h]
  | cons e rest ih =>
    intro tm htm hnd
    simp only [List.map_cons, List.foldl_cons]
    rw [foldRemove_step e rest (rest.map (fun h => h.id)) tm]
    have hnd' : (rest.map (fun h => h.id)).Nodup := (List.nodup_cons.mp (by simpa using hnd)).2
    have hmem : e.id ∉ rest.map (fun h => h.id) := (List.nodup_cons.mp (by simpa using hnd)).1
    have htm' : (if e.timer then tm.erase e.id else tm)
        = (rest.filter (fun h => h.timer)).map (fun h => h.id) := by
      by_cases het : e.timer
      · rw [if_pos het, htm]
        simp only [List.filter_cons, het, if_pos, List.map_cons]
        exact List.erase_cons_head e.id _
      · rw [if_neg het, htm]
        simp [List.filter_cons, het]
    rw [htm']
    exact ih _ rfl hnd'

theorem removeAll_basic (st : BState)
    (h1 : st.docOverlays = st.highlights.map (fun h => h.id)) :
    ((removeAllHighlights st).1 = st.highlights.length)
    ∧ ((removeAllHighlights st).2.highlights = [])
    ∧ ((removeAllHighlights st).2.docOverlays = []) := by
  obtain ⟨hl, doc, tm⟩ := st
  simp only at h1
  subst h1
  unfold removeAllHighlights
  exact ⟨by simp, (foldRemove_basic hl tm).1, (foldRemove_basic hl tm).2⟩

theorem removeAll_resets (st : BState)
    (h1 : st.docOverlays = st.highlights.map (fun h => h.id))
    (h2 : st.timers = (st.highlights.filter (fun h => h.timer)).map (fun h => h.id))
    (h3 : (st.highlights.map (fun h => h.id)).Nodup) :
    (removeAllHighlights st).2 = ⟨[], [], []⟩ := by
  obtain ⟨hl, doc, tm⟩ := st
  simp only at h1 h2 h3
  subst h1
  subst h2
  unfold removeAllHighlights
  exact foldRemove_full hl _ rfl h3

/-- C9: starting from a pristine page, after `N` successful `highlight`
calls (and no other removals), `removeAllHighlights` returns exactly `N`,
leaves the tracked collection empty, and detaches every overlay element;
when the resolved ids of the calls are pairwise distinct (as the
auto-generated random ids are), every pending auto-removal timer is
cancelled as well. -/
theorem removeAll_after_n_highlights (page : List String) (calls : List HCall)
    (hsucc : ∀ c ∈ calls, page.contains c.selector = true) :
    ((removeAllHighlights (runHighlights page calls emptyState)).1 = calls.length)
    ∧ ((removeAllHighlights (runHighlights page calls emptyState)).2.highlights = [])
    ∧ ((removeAllHighlights (runHighlights page calls emptyState)).2.docOverlays = [])
    ∧ ((calls.map resolvedId).Nodup →
        (removeAllHighlights (runHighlights page calls emptyState)).2.timers = []) := by
  have hinv := runHighlights_inv2 page calls emptyState hsucc rfl
  have hbasic := removeAll_basic (runHighlights page calls emptyState) hinv.1
  refine ⟨?_, hbasic.2.1, hbasic.2.2, ?_⟩
  · rw [hbasic.1, hinv.2]
    simp [emptyState]
  · intro hnd
    have hfull := runHighlights_inv_full page calls emptyState hsucc rfl rfl (by simpa using hnd)
    have := removeAll_resets (runHighlights page calls emptyState) hfull.1 hfull.2.1 hfull.2.2
    rw [this]

/-- C9 witness: two successful calls with distinct auto ids. -/
theorem removeAll_after_n_highlights_witness :
    (∀ c ∈ ([⟨"#a", {}, "id1"⟩, ⟨"#a", {}, "id2"⟩] : List HCall),
        (["#a"] : List String).contains c.selector = true)
    ∧ ((removeAllHighlights (runHighlights ["#a"]
          [⟨"#a", {}, "id1"⟩, ⟨"#a", {}, "id2"⟩] emptyState)).1 = 2)
    ∧ ((removeAllHighlights (runHighlights ["#a"]
          [⟨"#a", {}, "id1"⟩, ⟨"#a", {}, "id2"⟩] emptyState)).2.highlights = [])
    ∧ ((removeAllHighlights (runHighlights ["#a"]
          [⟨"#a", {}, "id1"⟩, ⟨"#a", {}, "id2"⟩] emptyState)).2.timers = []) := by
  have h := removeAll_after_n_highlights ["#a"] [⟨"#a", {}, "id1"⟩, ⟨"#a", {}, "id2"⟩]
    (by intro c hc; fin_cases hc <;> decide)
  exact ⟨by intro c hc; fin_cases hc <;> decide, h.1, h.2.1,
    h.2.2.2 (by decide)⟩

end BasicHighlighter

namespace PhotoDisplay

/-- C4 (amended claim): when a nonzero score and a metrics object are
supplied, the panel rendered once the image loads shows the score in the
colour `getScoreColor` gives it — `#4CAF50` for `score >= 8`, `#FFC107` for
`6 <= score < 8`, `#F44336` below 6 — and one line per present metric,
rendered as the value times 100 to one decimal place followed by `%`; the
"facial analysis unavailable" notice appears when the score is absent, when
the metrics object is absent, and also when the supplied score is `0`
(which is inside the 0–10 range but falsy, so the truthiness guard routes
it to the notice; see the counterexample). -/
theorem photo_metrics_panel_spec (s : ℚ) (m : Metrics) (hpos : 0 < s) :
    ((renderMetricsOverlay (some s) (some m)).headingColor = getScoreColor s)
    ∧ ((renderMetricsOverlay (some s) (some m)).scoreShown = some s)
    ∧ (8 ≤ s → getScoreColor s = "#4CAF50")
    ∧ (6 ≤ s → s < 8 → getScoreColor s = "#FFC107")
    ∧ (s < 6 → getScoreColor s = "#F44336")
    ∧ (∀ v, m.symmetry = some v →
        metricLine "Symmetry" v ∈ (renderMetricsOverlay (some s) (some m)).lines)
    ∧ (∀ v, m.golden = some v →
        metricLine "Golden Ratio" v ∈ (renderMetricsOverlay (some s) (some m)).lines)
    ∧ (∀ v, m.thirds = some v →
        metricLine "Facial Thirds" v ∈ (renderMetricsOverlay (some s) (some m)).lines)
    ∧ (∀ v, m.eyeSpacing = some v →
        metricLine "Eye Spacing" v ∈ (renderMetricsOverlay (some s) (some m)).lines)
    ∧ (∀ m2, renderMetricsOverlay none m2 = unavailablePanel)
    ∧ (∀ m2, renderMetricsOverlay (some 0) m2 = unavailablePanel)
    ∧ (∀ s2, renderMetricsOverlay s2 none = unavailablePanel)
    ∧ (metricLine "Symmetry" (873/1000) = "Symmetry: 87.3%") := by
  have hne : s ≠ 0 := ne_of_gt hpos
  refine ⟨?_, ?_, ?_, ?_, ?_, ?_, ?_, ?_, ?_, ?_, ?_, ?_, ?_⟩
  · simp only [renderMetricsOverlay, if_pos hne]
  · simp only [renderMetricsOverlay, if_pos hne]
  · intro h8
    unfold getScoreColor
    rw [if_pos h8]
  · intro h6 h8
    unfold getScoreColor
    rw [if_neg (not_le.mpr h8), if_pos h6]
  · intro h6
    unfold getScoreColor
    rw [if_neg (not_le.mpr (lt_trans h6 (by norm_num))), if_neg (not_le.mpr h6)]
  · intro v hv
    simp only [renderMetricsOverlay, if_pos hne]
    simp [hv]
  · intro v hv
    simp only [renderMetricsOverlay, if_pos hne]
    simp [hv]
  · intro v hv
    simp only [renderMetricsOverlay, if_pos hne]
    simp [hv]
  · intro v hv
    simp only [renderMetricsOverlay, if_pos hne]
    simp [hv]
  · intro m2
    cases m2 <;> rfl
  · intro m2
    cases m2 with
    | none => rfl
    | some mm => simp [renderMetricsOverlay]
  · intro s2
    cases s2 <;> rfl
  · have hfix : toFixed1 ((873 : ℚ)/1000 * 100) = "87.3" := by
      norm_num [toFixed1]
      decide
    unfold metricLine
    rw [hfix]
    decide

/-- C4 (counterexample): a score of `0` — a value inside the claimed 0–10
range — supplied together with a metrics object renders the unavailability
notice instead of the metrics panel, so the panel is not rendered and the
heading is not `#F44336` as the claim's colour rule would require. -/
theorem photo_score_zero_shows_unavailable :
    renderMetricsOverlay (some 0) (some ⟨some (873/1000), none, none, none⟩) = unavailablePanel
    ∧ unavailablePanel.headingColor ≠ "#F44336"
    ∧ unavailablePanel.lines = [] := by
  refine ⟨by simp [renderMetricsOverlay], by decide, rfl⟩

/-- C4 witness: the amended theorem at score 7 (amber per the spec's own
example) with `symmetry = 0.873`. -/
theorem photo_metrics_panel_spec_witness :
    (0 : ℚ) < 7 ∧ getScoreColor 7 = "#FFC107" :=
  ⟨by norm_num,
    (photo_metrics_panel_spec 7 ⟨some (873/1000), none, none, none⟩ (by norm_num)).2.2.2.1
      (by norm_num) (by norm_num)⟩

end PhotoDisplay

namespace ResearchDisplay

/-- C5 (amended claim): `displayResearch` creates a card only for metadata
entries with a truthy `thumbnailUrl`, and a card shows `Match: N%` — `N`
the likeness score rounded to the nearest whole percent, e.g. 87.6 renders
as `Match: 88%` — exactly when the likeness score is truthy, i.e. present
and nonzero; a present score of `0` (inside the claimed 0–100 range) shows
no match text (see the counterexample). -/
theorem research_cards_spec :
    (∀ item : MetaItem, truthyStr item.thumbnailUrl = false → cardForItem item = none)
    ∧ (∀ (item : MetaItem) (sc : ℚ),
        truthyStr item.thumbnailUrl = true → item.likenessScore = some sc → sc ≠ 0 →
        (cardForItem item).map (fun c => c.matchText)
          = some (some ("Match: " ++ intToStr (mathRound sc) ++ "%")))
    ∧ (mathRound (876/10) = 88)
    ∧ ("Match: " ++ intToStr (mathRound ((876 : ℚ)/10)) ++ "%" = "Match: 88%") := by
  have h88 : mathRound ((876 : ℚ)/10) = 88 := by
    unfold mathRound
    norm_num [Int.floor_eq_iff]
  refine ⟨?_, ?_, h88, ?_⟩
  · intro item h
    simp [cardForItem, h]
  · intro item sc h hsc hne
    simp [cardForItem, h, truthyNum, hsc, hne]
  · rw [h88]
    decide

/-- C5 (counterexample): a metadata entry with a thumbnail and a likeness
score of `0` — a value inside the claimed 0–100 range — produces a card
with no match text at all, where the claim requires the text `Match: 0%`. -/
theorem research_zero_score_shows_no_match :
    cardForItem ⟨some "https://x/full.jpg", some "https://x/thumb.jpg", some 0⟩
      = some ⟨"https://x/full.jpg", "https://x/thumb.jpg", none⟩ := by
  simp [cardForItem, truthyStr, truthyNum]

/-- C5 witness: the amended theorem at the spec's own example score 87.6. -/
theorem research_cards_spec_witness :
    truthyStr (some "https://x/thumb.jpg") = true
    ∧ (cardForItem ⟨some "https://x/full.jpg", some "https://x/thumb.jpg", some (876/10)⟩).map
        (fun c => c.matchText)
      = some (some ("Match: " ++ intToStr (mathRound ((876 : ℚ)/10)) ++ "%")) :=
  ⟨by decide,
    research_cards_spec.2.1 ⟨some "https://x/full.jpg", some "https://x/thumb.jpg", some (876/10)⟩
      (876/10) (by decide) rfl (by norm_num)⟩

end ResearchDisplay

namespace AdvancedHighlighter

theorem isElementVisible_eq (e : ElemData) (st : ModuleState) :
    isElementVisible e st
      = (visiblePure e, { st with styleCache := pushRef st.styleCache e.ref }) := by
  unfold isElementVisible getCachedComputedStyle visiblePure computedStyleOf pushRef
  split <;> rfl

theorem isTopElement_eq (vw vh : Int) (e : ElemData) (st : ModuleState) :
    isTopElement vw vh e st
      = (topPure vw vh e, { st with rectCache := pushRef st.rectCache e.ref }) := by
  unfold isTopElement getCachedBoundingRect topPure pushRef
  split <;> split
  all_goals dsimp only
  all_goals split <;> rfl

theorem highlightElement_eq (e : ElemData) (i : Nat) (st : ModuleState) :
    highlightElement e i st
      = (if e.highlightThrows then i else i + 1,
         { st with
           container := some ((st.container.getD [])
             ++ (if e.highlightThrows then [] else [i])) }) := by
  unfold highlightElement
  cases hth : e.highlightThrows <;> simp

theorem classifyNode_eq (vw vh : Int) (e : ElemData) (st : ModuleState) :
    classifyNode vw vh e st =
      ((visiblePure e, classifyFlags vw vh e st.highlightIndex),
       { st with
          highlightIndex := st.highlightIndex + (if selfInteractive vw vh e then 1 else 0),
          styleCache := pushRef st.styleCache e.ref,
          rectCache := if visiblePure e then pushRef st.rectCache e.ref else st.rectCache,
          container := if selfInteractive vw vh e then
              some ((st.container.getD [])
                ++ (if e.highlightThrows then [] else [st.highlightIndex]))
            else st.container }) := by
  unfold classifyNode
  rw [isElementVisible_eq]
  by_cases hv : visiblePure e
  · simp only [hv, if_true]
    rw [isTopElement_eq]
    by_cases ht : topPure vw vh e
    · simp only [ht, if_true]
      by_cases hi : isInteractiveElement e
      · simp only [hi, if_true]
        rw [highlightElement_eq]
        simp [classifyFlags, selfInteractive, hv, ht, hi]
      · simp only [hi, if_false]
        simp [classifyFlags, selfInteractive, hv, ht, hi]
    · simp only [ht, if_false]
      simp [classifyFlags, selfInteractive, hv, ht]
  · simp only [hv, if_false]
    simp [classifyFlags, selfInteractive, hv]

/-- C10: the result of `findAndHighlightInteractiveElements` — the count
returned and the whole final module state, hence the elements scanned and
the overlays drawn — depends on the options only through `parentSelector`;
`doHighlightElements`, `focusHighlightIndex` and `viewportExpansion` are
merged into the config but never read, so two calls whose options differ
only in those three fields behave identically. -/
theorem scan_ignores_unused_options (page : Page) (o1 o2 : HighlightOptions)
    (st : ModuleState) (h : o1.parentSelector = o2.parentSelector) :
    findAndHighlightInteractiveElements page o1 st
      = findAndHighlightInteractiveElements page o2 st := by
  unfold findAndHighlightInteractiveElements startOf
  rw [h]

/-- C10 witness: options differing in all three unused fields. -/
theorem scan_ignores_unused_options_witness :
    ({ doHighlightElements := false, focusHighlightIndex := 5,
       viewportExpansion := 200 } : HighlightOptions).parentSelector
      = (defaultOptions : HighlightOptions).parentSelector
    ∧ findAndHighlightInteractiveElements pageBodyOnly
        { doHighlightElements := false, focusHighlightIndex := 5, viewportExpansion := 200 }
        initState
      = findAndHighlightInteractiveElements pageBodyOnly defaultOptions initState :=
  ⟨rfl, scan_ignores_unused_options pageBodyOnly _ _ initState rfl⟩

end AdvancedHighlighter

namespace AdvancedHighlighter

theorem buildDomTree_other_def (vw vh : Int) (xp : String) (st : ModuleState) :
    buildDomTree vw vh .other xp st = (none, st) := rfl

theorem buildDomTree_elem_noShadow (vw vh : Int) (d : ElemData)
    (ct : ContentOpt) (cs : DomForest) (xp : String) (st : ModuleState) :
    buildDomTree vw vh (.elem d .noShadow ct cs) xp st =
      if d.idAttr == HIGHLIGHT_CONTAINER_ID then (none, st)
      else if !(isElementAccepted d) then (none, st)
      else
        let cres := classifyNode vw vh d st
        let st1 := if lowerStr d.tagName == "iframe" then buildDomContent vw vh ct cres.2
                   else buildDomChildren vw vh cs xp [] cres.2
        let nd : NodeData :=
          { tagName := lowerStr d.tagName, xpath := xp, isVisible := cres.1.1,
            isTopElement := cres.1.2.1, isInteractive := cres.1.2.2.1,
            highlightIndex := cres.1.2.2.2, children := [] }
        (some st1.idCurrent,
          { st1 with idCurrent := st1.idCurrent + 1,
                     domHashMap := mapSet st1.domHashMap st1.idCurrent nd }) := rfl

theorem buildDomTree_elem_shadow (vw vh : Int) (d : ElemData) (roots : DomForest)
    (ct : ContentOpt) (cs : DomForest) (xp : String) (st : ModuleState) :
    buildDomTree vw vh (.elem d (.withShadow roots) ct cs) xp st =
      if d.idAttr == HIGHLIGHT_CONTAINER_ID then (none, st)
      else if !(isElementAccepted d) then (none, st)
      else
        let cres := classifyNode vw vh d st
        let st1 := if lowerStr d.tagName == "iframe" then buildDomContent vw vh ct cres.2
                   else buildDomShadow vw vh roots cres.2
        let nd : NodeData :=
          { tagName := lowerStr d.tagName, xpath := xp, isVisible := cres.1.1,
            isTopElement := cres.1.2.1, isInteractive := cres.1.2.2.1,
            highlightIndex := cres.1.2.2.2, children := [] }
        (some st1.idCurrent,
          { st1 with idCurrent := st1.idCurrent + 1,
                     domHashMap := mapSet st1.domHashMap st1.idCurrent nd }) := rfl

theorem buildDomContent_noDoc (vw vh : Int) (st : ModuleState) :
    buildDomContent vw vh .noDoc st = st := rfl

theorem buildDomContent_withBody (vw vh : Int) (b : DomNode) (st : ModuleState) :
    buildDomContent vw vh (.withBody b) st = (buildDomTree vw vh b "html/body" st).2 := rfl

theorem buildDomShadow_nil (vw vh : Int) (st : ModuleState) :
    buildDomShadow vw vh .nil st = st := rfl

theorem buildDomShadow_cons (vw vh : Int) (c : DomNode) (rest : DomForest) (st : ModuleState) :
    buildDomShadow vw vh (.cons c rest) st
      = buildDomShadow vw vh rest (buildDomTree vw vh c "" st).2 := rfl

theorem buildDomChildren_nil (vw vh : Int) (pp : String) (seen : List String) (st : ModuleState) :
    buildDomChildren vw vh .nil pp seen st = st := rfl

theorem buildDomChildren_cons_other (vw vh : Int) (rest : DomForest) (pp : String)
    (seen : List String) (st : ModuleState) :
    buildDomChildren vw vh (.cons .other rest) pp seen st
      = buildDomChildren vw vh rest pp seen st := rfl

theorem buildDomChildren_cons_elem (vw vh : Int) (d : ElemData) (sh2 : ShadowOpt)
    (ct2 : ContentOpt) (cs2 : DomForest) (rest : DomForest) (pp : String)
    (seen : List String) (st : ModuleState) :
    buildDomChildren vw vh (.cons (.elem d sh2 ct2 cs2) rest) pp seen st
      = buildDomChildren vw vh rest pp (seen ++ [d.tagName])
          (buildDomTree vw vh (.elem d sh2 ct2 cs2)
            (joinPath pp (xpathSegment d.tagName (seen.count d.tagName))) st).2 := rfl

theorem cntI_other (vw vh : Int) : cntI vw vh .other = 0 := rfl

theorem cntI_elem_noShadow (vw vh : Int) (d : ElemData) (ct : ContentOpt) (cs : DomForest) :
    cntI vw vh (.elem d .noShadow ct cs) =
      if skipElem d then 0
      else
        (if selfInteractive vw vh d then 1 else 0)
          + (if lowerStr d.tagName == "iframe" then cntIContent vw vh ct
             else cntIList vw vh cs) := rfl

theorem cntI_elem_shadow (vw vh : Int) (d : ElemData) (roots : DomForest)
    (ct : ContentOpt) (cs : DomForest) :
    cntI vw vh (.elem d (.withShadow roots) ct cs) =
      if skipElem d then 0
      else
        (if selfInteractive vw vh d then 1 else 0)
          + (if lowerStr d.tagName == "iframe" then cntIContent vw vh ct
             else cntIList vw vh roots) := rfl

theorem cntIContent_noDoc (vw vh : Int) : cntIContent vw vh .noDoc = 0 := rfl

theorem cntIContent_withBody (vw vh : Int) (b : DomNode) :
    cntIContent vw vh (.withBody b) = cntI vw vh b := rfl

theorem cntIList_nil (vw vh : Int) : cntIList vw vh .nil = 0 := rfl

theorem cntIList_cons (vw vh : Int) (c : DomNode) (rest : DomForest) :
    cntIList vw vh (.cons c rest) = cntI vw vh c + cntIList vw vh rest := rfl

theorem cntSucc_other (vw vh : Int) : cntSucc vw vh .other = 0 := rfl

theorem cntSucc_elem_noShadow (vw vh : Int) (d : ElemData) (ct : ContentOpt) (cs : DomForest) :
    cntSucc vw vh (.elem d .noShadow ct cs) =
      if skipElem d then 0
      else
        (if selfDrawn vw vh d then 1 else 0)
          + (if lowerStr d.tagName == "iframe" then cntSuccContent vw vh ct
             else cntSuccList vw vh cs) := rfl

theorem cntSucc_elem_shadow (vw vh : Int) (d : ElemData) (roots : DomForest)
    (ct : ContentOpt) (cs : DomForest) :
    cntSucc vw vh (.elem d (.withShadow roots) ct cs) =
      if skipElem d then 0
      else
        (if selfDrawn vw vh d then 1 else 0)
          + (if lowerStr d.tagName == "iframe" then cntSuccContent vw vh ct
             else cntSuccList vw vh roots) := rfl

theorem cntSuccContent_noDoc (vw vh : Int) : cntSuccContent vw vh .noDoc = 0 := rfl

theorem cntSuccContent_withBody (vw vh : Int) (b : DomNode) :
    cntSuccContent vw vh (.withBody b) = cntSucc vw vh b := rfl

theorem cntSuccList_nil (vw vh : Int) : cntSuccList vw vh .nil = 0 := rfl

theorem cntSuccList_cons (vw vh : Int) (c : DomNode) (rest : DomForest) :
    cntSuccList vw vh (.cons c rest) = cntSucc vw vh c + cntSuccList vw vh rest := rfl

theorem cntA_other : cntA .other = 0 := rfl

theorem cntA_elem_noShadow (d : ElemData) (ct : ContentOpt) (cs : DomForest) :
    cntA (.elem d .noShadow ct cs) =
      if skipElem d then 0
      else
        1 + (if lowerStr d.tagName == "iframe" then cntAContent ct
             else cntAList cs) := rfl

theorem cntA_elem_shadow (d : ElemData) (roots : DomForest) (ct : ContentOpt) (cs : DomForest) :
    cntA (.elem d (.withShadow roots) ct cs) =
      if skipElem d then 0
      else
        1 + (if lowerStr d.tagName == "iframe" then cntAContent ct
             else cntAList roots) := rfl

theorem cntAContent_noDoc : cntAContent .noDoc = 0 := rfl

theorem cntAContent_withBody (b : DomNode) : cntAContent (.withBody b) = cntA b := rfl

theorem cntAList_nil : cntAList .nil = 0 := rfl

theorem cntAList_cons (c : DomNode) (rest : DomForest) :
    cntAList (.cons c rest) = cntA c + cntAList rest := rfl

theorem recs_other (vw vh : Int) (xp : String) (h0 id0 : Nat) :
    recs vw vh .other xp h0 id0 = [] := rfl

theorem recs_elem_noShadow (vw vh : Int) (d : ElemData) (ct : ContentOpt) (cs : DomForest)
    (xp : String) (h0 id0 : Nat) :
    recs vw vh (.elem d .noShadow ct cs) xp h0 id0 =
      if skipElem d then []
      else
        let selfI : Nat := if selfInteractive vw vh d then 1 else 0
        let childPart :=
          if lowerStr d.tagName == "iframe" then recsContent vw vh ct (h0 + selfI) id0
          else recsChildren vw vh cs xp [] (h0 + selfI) id0
        let flags := classifyFlags vw vh d h0
        childPart ++
          [(id0 + childPart.length,
            { tagName := lowerStr d.tagName, xpath := xp, isVisible := visiblePure d,
              isTopElement := flags.1, isInteractive := flags.2.1,
              highlightIndex := flags.2.2, children := [] })] := rfl

theorem recs_elem_shadow (vw vh : Int) (d : ElemData) (roots : DomForest)
    (ct : ContentOpt) (cs : DomForest) (xp : String) (h0 id0 : Nat) :
    recs vw vh (.elem d (.withShadow roots) ct cs) xp h0 id0 =
      if skipElem d then []
      else
        let selfI : Nat := if selfInteractive vw vh d then 1 else 0
        let childPart :=
          if lowerStr d.tagName == "iframe" then recsContent vw vh ct (h0 + selfI) id0
          else recsShadow vw vh roots (h0 + selfI) id0
        let flags := classifyFlags vw vh d h0
        childPart ++
          [(id0 + childPart.length,
            { tagName := lowerStr d.tagName, xpath := xp, isVisible := visiblePure d,
              isTopElement := flags.1, isInteractive := flags.2.1,
              highlightIndex := flags.2.2, children := [] })] := rfl

theorem recsContent_noDoc (vw vh : Int) (h0 id0 : Nat) :
    recsContent vw vh .noDoc h0 id0 = [] := rfl

theorem recsContent_withBody (vw vh : Int) (b : DomNode) (h0 id0 : Nat) :
    recsContent vw vh (.withBody b) h0 id0 = recs vw vh b "html/body" h0 id0 := rfl

theorem recsShadow_nil (vw vh : Int) (h0 id0 : Nat) :
    recsShadow vw vh .nil h0 id0 = [] := rfl

theorem recsShadow_cons (vw vh : Int) (c : DomNode) (rest : DomForest) (h0 id0 : Nat) :
    recsShadow vw vh (.cons c rest) h0 id0
      = recs vw vh c "" h0 id0
          ++ recsShadow vw vh rest (h0 + cntI vw vh c)
              (id0 + (recs vw vh c "" h0 id0).length) := rfl

theorem recsChildren_nil (vw vh : Int) (pp : String) (seen : List String) (h0 id0 : Nat) :
    recsChildren vw vh .nil pp seen h0 id0 = [] := rfl

theorem recsChildren_cons_other (vw vh : Int) (rest : DomForest) (pp : String)
    (seen : List String) (h0 id0 : Nat) :
    recsChildren vw vh (.cons .other rest) pp seen h0 id0
      = recsChildren vw vh rest pp seen h0 id0 := rfl

theorem recsChildren_cons_elem (vw vh : Int) (d : ElemData) (sh2 : ShadowOpt)
    (ct2 : ContentOpt) (cs2 : DomForest) (rest : DomForest) (pp : String)
    (seen : List String) (h0 id0 : Nat) :
    recsChildren vw vh (.cons (.elem d sh2 ct2 cs2) rest) pp seen h0 id0
      = recs vw vh (.elem d sh2 ct2 cs2)
          (joinPath pp (xpathSegment d.tagName (seen.count d.tagName))) h0 id0
        ++ recsChildren vw vh rest pp (seen ++ [d.tagName])
            (h0 + cntI vw vh (.elem d sh2 ct2 cs2))
            (id0 + (recs vw vh (.elem d sh2 ct2 cs2)
              (joinPath pp (xpathSegment d.tagName (seen.count d.tagName))) h0 id0).length) := rfl

end AdvancedHighlighter


namespace AdvancedHighlighter

theorem lookup_mapUpdate_other (k0 : Nat) (v0 : NodeData) (k : Nat) (hne : k ≠ k0) :
    ∀ m : List (Nat × NodeData),
      (m.map (fun p => if p.1 == k0 then (k0, v0) else p)).lookup k = m.lookup k := by
  intro m
  induction m with
  | nil => rfl
  | cons p t ih =>
    obtain ⟨a, b⟩ := p
    simp only [List.map_cons]
    by_cases hp : a = k0
    · subst hp
      rw [if_pos (by simp)]
      rw [List.lookup_cons, List.lookup_cons]
      have h1 : (k == a) = false := by simpa using hne
      simp only [h1]
      exact ih
    · rw [if_neg (by simpa using hp)]
      rw [List.lookup_cons, List.lookup_cons]
      cases hkp : k == a
      · exact ih
      · rfl

theorem lookup_mapUpdate_self (k0 : Nat) (v0 : NodeData) :
    ∀ m : List (Nat × NodeData), m.any (fun p => p.1 == k0) = true →
      (m.map (fun p => if p.1 == k0 then (k0, v0) else p)).lookup k0 = some v0 := by
  intro m
  induction m with
  | nil => intro h; cases h
  | cons p t ih =>
    intro hany
    obtain ⟨a, b⟩ := p
    simp only [List.map_cons]
    by_cases hp : a = k0
    · subst hp
      rw [if_pos (by simp)]
      rw [List.lookup_cons]
      simp
    · rw [if_neg (by simpa using hp)]
      rw [List.lookup_cons]
      have hk : (k0 == a) = false := by simpa using (Ne.symm hp)
      simp only [hk]
      apply ih
      simp only [List.any_cons, Bool.or_eq_true] at hany
      rcases hany with h | h
      · exact absurd (by simpa using h) hp
      · exact h

theorem lookup_append_single_other (k0 : Nat) (v0 : NodeData) (k : Nat) (hne : k ≠ k0) :
    ∀ m : List (Nat × NodeData), (m ++ [(k0, v0)]).lookup k = m.lookup k := by
  intro m
  induction m with
  | nil =>
    rw [List.nil_append, List.lookup_cons]
    have h1 : (k == k0) = false := by simpa using hne
    simp [h1]
  | cons p t ih =>
    obtain ⟨a, b⟩ := p
    rw [List.cons_append, List.lookup_cons, List.lookup_cons]
    cases hkp : k == a
    · exact ih
    · rfl

theorem lookup_append_single_self (k0 : Nat) (v0 : NodeData) :
    ∀ m : List (Nat × NodeData), m.any (fun p => p.1 == k0) = false →
      (m ++ [(k0, v0)]).lookup k0 = some v0 := by
  intro m
  induction m with
  | nil =>
    intro _
    rw [List.nil_append, List.lookup_cons]
    simp
  | cons p t ih =>
    intro hany
    obtain ⟨a, b⟩ := p
    simp only [List.any_cons, Bool.or_eq_false_iff] at hany
    rw [List.cons_append, List.lookup_cons]
    have hk : (k0 == a) = false := by
      have h1 : (a == k0) = false := hany.1
      simp only [beq_eq_false_iff_ne] at h1 ⊢
      exact Ne.symm h1
    simp only [hk]
    exact ih hany.2

theorem mapSet_lookup_self (m : List (Nat × NodeData)) (k0 : Nat) (v0 : NodeData) :
    (mapSet m k0 v0).lookup k0 = some v0 := by
  unfold mapSet
  split
  · exact lookup_mapUpdate_self k0 v0 m (by assumption)
  · next h => exact lookup_append_single_self k0 v0 m (by simpa only [Bool.not_eq_true] using h)

theorem mapSet_lookup_other (m : List (Nat × NodeData)) (k0 : Nat) (v0 : NodeData)
    (k : Nat) (hne : k ≠ k0) :
    (mapSet m k0 v0).lookup k = m.lookup k := by
  unfold mapSet
  split
  · exact lookup_mapUpdate_other k0 v0 k hne m
  · exact lookup_append_single_other k0 v0 k hne m

theorem writeList_nil (m : List (Nat × NodeData)) : writeList m [] = m := rfl

theorem writeList_cons (m : List (Nat × NodeData)) (p : Nat × NodeData)
    (l : List (Nat × NodeData)) :
    writeList m (p :: l) = writeList (mapSet m p.1 p.2) l := rfl

theorem writeList_append (m l1 l2 : List (Nat × NodeData)) :
    writeList m (l1 ++ l2) = writeList (writeList m l1) l2 := by
  simp [writeList, List.foldl_append]

theorem writeList_lookup_not_mem (l : List (Nat × NodeData)) :
    ∀ (m : List (Nat × NodeData)) (k : Nat), k ∉ l.map Prod.fst →
      (writeList m l).lookup k = m.lookup k := by
  induction l with
  | nil => intro m k _; rfl
  | cons p t ih =>
    intro m k hk
    simp only [List.map_cons, List.mem_cons, not_or] at hk
    rw [writeList_cons, ih _ k hk.2, mapSet_lookup_other m p.1 p.2 k hk.1]

theorem writeList_lookup_cases (l : List (Nat × NodeData)) :
    ∀ (m : List (Nat × NodeData)) (k : Nat) (v : NodeData),
      (writeList m l).lookup k = some v → ((k, v) ∈ l) ∨ m.lookup k = some v := by
  induction l with
  | nil => intro m k v h; exact Or.inr h
  | cons p t ih =>
    intro m k v h
    rw [writeList_cons] at h
    rcases ih _ k v h with h1 | h1
    · exact Or.inl (List.mem_cons_of_mem p h1)
    · by_cases hk : k = p.1
      · subst hk
        rw [mapSet_lookup_self] at h1
        have hv : p.2 = v := by injection h1
        left
        rw [← hv]
        exact List.mem_cons_self p t
      · rw [mapSet_lookup_other m p.1 p.2 k hk] at h1
        exact Or.inr h1

theorem mapSet_fresh (m : List (Nat × NodeData)) (k0 : Nat) (v0 : NodeData)
    (h : m.any (fun p => p.1 == k0) = false) :
    mapSet m k0 v0 = m ++ [(k0, v0)] := by
  unfold mapSet
  rw [if_neg (by simp [h])]

theorem writeList_fresh (l : List (Nat × NodeData)) :
    ∀ m : List (Nat × NodeData),
      (∀ p ∈ l, m.any (fun q => q.1 == p.1) = false) →
      (l.map Prod.fst).Nodup →
      writeList m l = m ++ l := by
  induction l with
  | nil => intro m _ _; simp [writeList_nil]
  | cons p t ih =>
    intro m hfresh hnd
    rw [List.map_cons, List.nodup_cons] at hnd
    rw [writeList_cons, mapSet_fresh m p.1 p.2 (hfresh p (List.mem_cons_self p t))]
    rw [ih (m ++ [p]) ?_ hnd.2]
    · simp
    · intro q hq
      have h1 := hfresh q (List.mem_cons_of_mem p hq)
      have h2 : (p.1 == q.1) = false := by
        simp only [beq_eq_false_iff_ne]
        intro hcontra
        exact hnd.1 (by rw [hcontra]; exact List.mem_map_of_mem Prod.fst hq)
      simp only [List.any_append, List.any_cons, List.any_nil, h1, h2, Bool.or_false,
        Bool.false_or]

theorem lookup_some_any (k : Nat) (v : NodeData) :
    ∀ m : List (Nat × NodeData), m.lookup k = some v →
      m.any (fun p => p.1 == k) = true := by
  intro m
  induction m with
  | nil => intro h; cases h
  | cons p t ih =>
    intro h
    obtain ⟨a, b⟩ := p
    rw [List.lookup_cons] at h
    simp only [List.any_cons, Bool.or_eq_true]
    cases hk : k == a
    · rw [hk] at h
      exact Or.inr (ih h)
    · left
      have : k = a := by simpa using hk
      simp [this]

theorem mapUpdate_id_of_not_mem (k0 : Nat) (v0 : NodeData) :
    ∀ m : List (Nat × NodeData), (∀ q ∈ m, q.1 ≠ k0) →
      m.map (fun p => if p.1 == k0 then (k0, v0) else p) = m := by
  intro m
  induction m with
  | nil => intro _; rfl
  | cons p t ih =>
    intro h
    simp only [List.map_cons]
    rw [if_neg (by simpa using h p (List.mem_cons_self p t)),
      ih (fun q hq => h q (List.mem_cons_of_mem p hq))]

theorem mapSet_self_nodup (k : Nat) (v : NodeData) :
    ∀ m : List (Nat × NodeData), (m.map Prod.fst).Nodup → m.lookup k = some v →
      mapSet m k v = m := by
  intro m
  induction m with
  | nil => intro _ h; cases h
  | cons p t ih =>
    intro hnd h
    rw [List.map_cons, List.nodup_cons] at hnd
    unfold mapSet
    rw [if_pos (lookup_some_any k v _ h)]
    obtain ⟨a, b⟩ := p
    rw [List.lookup_cons] at h
    simp only [List.map_cons]
    by_cases hk : k = a
    · subst hk
      simp only [beq_self_eq_true] at h
      have hb : b = v := by injection h
      rw [if_pos (by simp), hb, mapUpdate_id_of_not_mem k v t ?_]
      intro q hq hqk
      have hmm : q.1 ∈ t.map Prod.fst := List.mem_map_of_mem Prod.fst hq
      rw [hqk] at hmm
      exact hnd.1 hmm
    · have hbk : (k == a) = false := by simpa using hk
      rw [hbk] at h
      rw [if_neg (by simpa using Ne.symm hk)]
      have := ih hnd.2 h
      unfold mapSet at this
      rw [if_pos (lookup_some_any k v _ h)] at this
      rw [this]

theorem writeList_id (l : List (Nat × NodeData)) :
    ∀ m : List (Nat × NodeData), (m.map Prod.fst).Nodup →
      (∀ p ∈ l, m.lookup p.1 = some p.2) →
      writeList m l = m := by
  induction l with
  | nil => intro m _ _; rfl
  | cons p t ih =>
    intro m hnd hall
    rw [writeList_cons, mapSet_self_nodup p.1 p.2 m hnd (hall p (List.mem_cons_self p t))]
    exact ih m hnd (fun q hq => hall q (List.mem_cons_of_mem p hq))

theorem lookup_of_mem_nodup (p : Nat × NodeData) :
    ∀ l : List (Nat × NodeData), p ∈ l → (l.map Prod.fst).Nodup →
      l.lookup p.1 = some p.2 := by
  intro l
  induction l with
  | nil => intro h; intro _; cases h
  | cons q t ih =>
    intro hmem hnd
    rw [List.map_cons, List.nodup_cons] at hnd
    obtain ⟨a, b⟩ := q
    rw [List.lookup_cons]
    rcases List.mem_cons.mp hmem with rfl | hmem'
    · simp
    · have hne : (p.1 == a) = false := by
        simp only [beq_eq_false_iff_ne]
        intro hcontra
        have hmm : p.1 ∈ t.map Prod.fst := List.mem_map_of_mem Prod.fst hmem'
        rw [hcontra] at hmm
        exact hnd.1 hmm
      simp only [hne]
      exact ih hmem' hnd.2

end AdvancedHighlighter

namespace AdvancedHighlighter

theorem rangeSplit (s m n : Nat) :
    List.range' s (m + n) = List.range' s m ++ List.range' (s + m) n := by
  have h := List.range'_append s m n 1
  simp only [one_mul] at h
  rw [Nat.add_comm m n]
  exact h.symm

theorem rangeConcat (s n : Nat) :
    List.range' s (n + 1) = List.range' s n ++ [s + n] := by
  rw [rangeSplit s n 1]
  norm_num [List.range'_one]

theorem classifyFlags_hidx (vw vh : Int) (e : ElemData) (h0 : Nat) :
    (classifyFlags vw vh e h0).2.2 = if selfInteractive vw vh e then some h0 else none := by
  unfold classifyFlags selfInteractive
  by_cases hv : visiblePure e
  · by_cases ht : topPure vw vh e
    · by_cases hi : isInteractiveElement e <;> simp [hv, ht, hi]
    · simp [hv, ht]
  · simp [hv]

theorem classify_hI (vw vh : Int) (e : ElemData) (st : ModuleState) :
    (classifyNode vw vh e st).2.highlightIndex
      = st.highlightIndex + (if selfInteractive vw vh e then 1 else 0) := by
  rw [classifyNode_eq]

theorem classify_idC (vw vh : Int) (e : ElemData) (st : ModuleState) :
    (classifyNode vw vh e st).2.idCurrent = st.idCurrent := by
  rw [classifyNode_eq]

theorem classify_map (vw vh : Int) (e : ElemData) (st : ModuleState) :
    (classifyNode vw vh e st).2.domHashMap = st.domHashMap := by
  rw [classifyNode_eq]

theorem classify_flags1 (vw vh : Int) (e : ElemData) (st : ModuleState) :
    (classifyNode vw vh e st).1
      = (visiblePure e, classifyFlags vw vh e st.highlightIndex) := by
  rw [classifyNode_eq]

theorem classify_clen (vw vh : Int) (e : ElemData) (st : ModuleState) :
    containerLen (classifyNode vw vh e st).2
      = containerLen st + (if selfDrawn vw vh e then 1 else 0) := by
  rw [classifyNode_eq]
  unfold containerLen selfDrawn
  by_cases hsi : selfInteractive vw vh e
  · simp only [hsi, if_pos, Bool.true_and]
    cases hth : e.highlightThrows
    · simp
    · simp
  · simp [hsi]

theorem recsElemCore (vw vh : Int) (d : ElemData) (h0 id0 : Nat)
    (child : List (Nat × NodeData)) (nd : NodeData) (cI cA : Nat)
    (hnd1 : nd.children = ([] : List Nat))
    (hnd2 : nd.highlightIndex = (classifyFlags vw vh d h0).2.2)
    (hmap : child.map Prod.fst = List.range' id0 cA)
    (hch : ∀ p ∈ child, p.2.children = ([] : List Nat))
    (hperm : (child.filterMap (fun p => p.2.highlightIndex)).Perm
      (List.range' (h0 + (if selfInteractive vw vh d then 1 else 0)) cI)) :
    ((child ++ [(id0 + child.length, nd)]).map Prod.fst = List.range' id0 (1 + cA))
    ∧ (∀ p ∈ child ++ [(id0 + child.length, nd)], p.2.children = ([] : List Nat))
    ∧ ((child ++ [(id0 + child.length, nd)]).filterMap (fun p => p.2.highlightIndex)).Perm
        (List.range' h0 ((if selfInteractive vw vh d then 1 else 0) + cI)) := by
  have hlen : child.length = cA := by
    have h := congrArg List.length hmap
    simpa using h
  refine ⟨?_, ?_, ?_⟩
  · rw [List.map_append, hmap, hlen]
    simp only [List.map_cons, List.map_nil]
    rw [Nat.add_comm 1 cA, rangeConcat]
  · intro p hp
    rcases List.mem_append.mp hp with h | h
    · exact hch p h
    · rcases List.mem_singleton.mp h with rfl
      exact hnd1
  · rw [List.filterMap_append]
    have hfm : List.filterMap (fun p => p.2.highlightIndex)
        ([(id0 + child.length, nd)] : List (Nat × NodeData))
        = if selfInteractive vw vh d then [h0] else [] := by
      by_cases hsi : selfInteractive vw vh d
      · simp [hnd2, classifyFlags_hidx, hsi]
      · simp [hnd2, classifyFlags_hidx, hsi]
    rw [hfm]
    by_cases hsi : selfInteractive vw vh d
    · rw [if_pos hsi, if_pos hsi]
      have h1 : List.range' h0 (1 + cI) = h0 :: List.range' (h0 + 1) cI := by
        rw [Nat.add_comm 1 cI]
        exact List.range'_succ h0 cI 1
      rw [h1]
      refine (List.perm_append_singleton h0 _).trans ?_
      exact List.Perm.cons h0 (by simpa [hsi] using hperm)
    · rw [if_neg hsi, List.append_nil]
      simpa [hsi] using hperm

theorem recsAppendCore (h0 id0 cA1 cI1 cA2 cI2 : Nat)
    (r rest : List (Nat × NodeData))
    (h1 : r.map Prod.fst = List.range' id0 cA1)
    (h2 : ∀ p ∈ r, p.2.children = ([] : List Nat))
    (h3 : (r.filterMap (fun p => p.2.highlightIndex)).Perm (List.range' h0 cI1))
    (h4 : rest.map Prod.fst = List.range' (id0 + cA1) cA2)
    (h5 : ∀ p ∈ rest, p.2.children = ([] : List Nat))
    (h6 : (rest.filterMap (fun p => p.2.highlightIndex)).Perm (List.range' (h0 + cI1) cI2)) :
    ((r ++ rest).map Prod.fst = List.range' id0 (cA1 + cA2))
    ∧ (∀ p ∈ r ++ rest, p.2.children = ([] : List Nat))
    ∧ ((r ++ rest).filterMap (fun p => p.2.highlightIndex)).Perm
        (List.range' h0 (cI1 + cI2)) := by
  refine ⟨?_, ?_, ?_⟩
  · rw [List.map_append, h1, h4, ← rangeSplit]
  · intro p hp
    rcases List.mem_append.mp hp with h | h
    · exact h2 p h
    · exact h5 p h
  · rw [List.filterMap_append, rangeSplit h0 cI1 cI2]
    exact h3.append h6

end AdvancedHighlighter

namespace AdvancedHighlighter

theorem recsCaseOther (vw vh : Int) : recsNodeP vw vh .other := by
  intro xp h0 id0
  refine ⟨by simp [recs_other, cntA_other], by simp [recs_other],
    by simp [recs_other, cntI_other]⟩

theorem recsCaseElem (vw vh : Int) (d : ElemData) (sh : ShadowOpt) (ct : ContentOpt)
    (cs : DomForest) (ihSh : recsShadowP vw vh sh) (ihCt : recsContentP vw vh ct)
    (ihCs : recsForestP vw vh cs) : recsNodeP vw vh (.elem d sh ct cs) := by
  intro xp h0 id0
  by_cases hsk : skipElem d
  · have hr : recs vw vh (.elem d sh ct cs) xp h0 id0 = [] := by
      cases sh
      · rw [recs_elem_noShadow, if_pos hsk]
      · rw [recs_elem_shadow, if_pos hsk]
    have hA : cntA (.elem d sh ct cs) = 0 := by
      cases sh
      · rw [cntA_elem_noShadow, if_pos hsk]
      · rw [cntA_elem_shadow, if_pos hsk]
    have hI : cntI vw vh (.elem d sh ct cs) = 0 := by
      cases sh
      · rw [cntI_elem_noShadow, if_pos hsk]
      · rw [cntI_elem_shadow, if_pos hsk]
    rw [hr, hA, hI]
    exact ⟨by simp, by simp, by simp⟩
  · cases sh with
    | noShadow =>
      rw [recs_elem_noShadow, if_neg hsk, cntA_elem_noShadow, if_neg hsk,
        cntI_elem_noShadow, if_neg hsk]
      dsimp only
      by_cases hif : lowerStr d.tagName == "iframe"
      · rw [if_pos hif, if_pos hif, if_pos hif]
        have hc := ihCt (h0 + if selfInteractive vw vh d then 1 else 0) id0
        exact recsElemCore vw vh d h0 id0 _ _ _ _ rfl rfl hc.1 hc.2.1 hc.2.2
      · rw [if_neg hif, if_neg hif, if_neg hif]
        have hc := ihCs.2 xp [] (h0 + if selfInteractive vw vh d then 1 else 0) id0
        exact recsElemCore vw vh d h0 id0 _ _ _ _ rfl rfl hc.1 hc.2.1 hc.2.2
    | withShadow roots =>
      have ihR : recsForestP vw vh roots := ihSh
      rw [recs_elem_shadow, if_neg hsk, cntA_elem_shadow, if_neg hsk,
        cntI_elem_shadow, if_neg hsk]
      dsimp only
      by_cases hif : lowerStr d.tagName == "iframe"
      · rw [if_pos hif, if_pos hif, if_pos hif]
        have hc := ihCt (h0 + if selfInteractive vw vh d then 1 else 0) id0
        exact recsElemCore vw vh d h0 id0 _ _ _ _ rfl rfl hc.1 hc.2.1 hc.2.2
      · rw [if_neg hif, if_neg hif, if_neg hif]
        have hc := ihR.1 (h0 + if selfInteractive vw vh d then 1 else 0) id0
        exact recsElemCore vw vh d h0 id0 _ _ _ _ rfl rfl hc.1 hc.2.1 hc.2.2

theorem recsCaseNoShadow (vw vh : Int) : recsShadowP vw vh .noShadow := trivial

theorem recsCaseWithShadow (vw vh : Int) (roots : DomForest)
    (ih : recsForestP vw vh roots) : recsShadowP vw vh (.withShadow roots) := ih

theorem recsCaseNoDoc (vw vh : Int) : recsContentP vw vh .noDoc := by
  intro h0 id0
  refine ⟨by simp [recsContent_noDoc, cntAContent_noDoc], by simp [recsContent_noDoc],
    by simp [recsContent_noDoc, cntIContent_noDoc]⟩

theorem recsCaseWithBody (vw vh : Int) (b : DomNode) (ih : recsNodeP vw vh b) :
    recsContentP vw vh (.withBody b) := fun h0 id0 => ih "html/body" h0 id0

theorem recsCaseNil (vw vh : Int) : recsForestP vw vh .nil := by
  constructor
  · intro h0 id0
    refine ⟨by simp [recsShadow_nil, cntAList_nil], by simp [recsShadow_nil],
      by simp [recsShadow_nil, cntIList_nil]⟩
  · intro pp seen h0 id0
    refine ⟨by simp [recsChildren_nil, cntAList_nil], by simp [recsChildren_nil],
      by simp [recsChildren_nil, cntIList_nil]⟩

theorem recsCaseCons (vw vh : Int) (hd : DomNode) (tl : DomForest)
    (ihHd : recsNodeP vw vh hd) (ihTl : recsForestP vw vh tl) :
    recsForestP vw vh (.cons hd tl) := by
  constructor
  · intro h0 id0
    have hr := ihHd "" h0 id0
    have hlen : (recs vw vh hd "" h0 id0).length = cntA hd := by
      have h := congrArg List.length hr.1
      simpa using h
    rw [recsShadow_cons, cntAList_cons, cntIList_cons, hlen]
    have hrest := ihTl.1 (h0 + cntI vw vh hd) (id0 + cntA hd)
    exact recsAppendCore h0 id0 (cntA hd) (cntI vw vh hd) (cntAList tl) (cntIList vw vh tl)
      _ _ hr.1 hr.2.1 hr.2.2 hrest.1 hrest.2.1 hrest.2.2
  · intro pp seen h0 id0
    cases hd with
    | other =>
      rw [recsChildren_cons_other, cntAList_cons, cntA_other, cntIList_cons, cntI_other]
      simpa using ihTl.2 pp seen h0 id0
    | elem d sh2 ct2 cs2 =>
      have hr := ihHd (joinPath pp (xpathSegment d.tagName (seen.count d.tagName))) h0 id0
      have hlen : (recs vw vh (.elem d sh2 ct2 cs2)
          (joinPath pp (xpathSegment d.tagName (seen.count d.tagName))) h0 id0).length
          = cntA (.elem d sh2 ct2 cs2) := by
        have h := congrArg List.length hr.1
        simpa using h
      rw [recsChildren_cons_elem, cntAList_cons, cntIList_cons, hlen]
      have hrest := ihTl.2 pp (seen ++ [d.tagName])
        (h0 + cntI vw vh (.elem d sh2 ct2 cs2))
        (id0 + cntA (.elem d sh2 ct2 cs2))
      exact recsAppendCore h0 id0 (cntA (.elem d sh2 ct2 cs2))
        (cntI vw vh (.elem d sh2 ct2 cs2)) (cntAList tl) (cntIList vw vh tl)
        _ _ hr.1 hr.2.1 hr.2.2 hrest.1 hrest.2.1 hrest.2.2

theorem recsNodeP_all (vw vh : Int) : ∀ n : DomNode, recsNodeP vw vh n :=
  @DomNode.rec (recsNodeP vw vh) (recsShadowP vw vh) (recsContentP vw vh) (recsForestP vw vh)
    (fun d sh ct cs ihs ihc ihf => recsCaseElem vw vh d sh ct cs ihs ihc ihf)
    (recsCaseOther vw vh)
    (recsCaseNoShadow vw vh)
    (fun roots ihr => recsCaseWithShadow vw vh roots ihr)
    (recsCaseNoDoc vw vh)
    (fun b ihb => recsCaseWithBody vw vh b ihb)
    (recsCaseNil vw vh)
    (fun hd tl ihh iht => recsCaseCons vw vh hd tl ihh iht)

theorem recsForestP_all (vw vh : Int) : ∀ f : DomForest, recsForestP vw vh f :=
  @DomForest.rec (recsNodeP vw vh) (recsShadowP vw vh) (recsContentP vw vh) (recsForestP vw vh)
    (fun d sh ct cs ihs ihc ihf => recsCaseElem vw vh d sh ct cs ihs ihc ihf)
    (recsCaseOther vw vh)
    (recsCaseNoShadow vw vh)
    (fun roots ihr => recsCaseWithShadow vw vh roots ihr)
    (recsCaseNoDoc vw vh)
    (fun b ihb => recsCaseWithBody vw vh b ihb)
    (recsCaseNil vw vh)
    (fun hd tl ihh iht => recsCaseCons vw vh hd tl ihh iht)

theorem recsContentP_all (vw vh : Int) : ∀ ct : ContentOpt, recsContentP vw vh ct :=
  @ContentOpt.rec (recsNodeP vw vh) (recsShadowP vw vh) (recsContentP vw vh) (recsForestP vw vh)
    (fun d sh ct cs ihs ihc ihf => recsCaseElem vw vh d sh ct cs ihs ihc ihf)
    (recsCaseOther vw vh)
    (recsCaseNoShadow vw vh)
    (fun roots ihr => recsCaseWithShadow vw vh roots ihr)
    (recsCaseNoDoc vw vh)
    (fun b ihb => recsCaseWithBody vw vh b ihb)
    (recsCaseNil vw vh)
    (fun hd tl ihh iht => recsCaseCons vw vh hd tl ihh iht)

theorem recs_length (vw vh : Int) (n : DomNode) (xp : String) (h0 id0 : Nat) :
    (recs vw vh n xp h0 id0).length = cntA n := by
  have h := congrArg List.length (recsNodeP_all vw vh n xp h0 id0).1
  simpa using h

theorem recsContent_length (vw vh : Int) (ct : ContentOpt) (h0 id0 : Nat) :
    (recsContent vw vh ct h0 id0).length = cntAContent ct := by
  have h := congrArg List.length (recsContentP_all vw vh ct h0 id0).1
  simpa using h

theorem recsShadow_length (vw vh : Int) (f : DomForest) (h0 id0 : Nat) :
    (recsShadow vw vh f h0 id0).length = cntAList f := by
  have h := congrArg List.length ((recsForestP_all vw vh f).1 h0 id0).1
  simpa using h

theorem recsChildren_length (vw vh : Int) (f : DomForest) (pp : String)
    (seen : List String) (h0 id0 : Nat) :
    (recsChildren vw vh f pp seen h0 id0).length = cntAList f := by
  have h := congrArg List.length ((recsForestP_all vw vh f).2 pp seen h0 id0).1
  simpa using h

end AdvancedHighlighter

namespace AdvancedHighlighter

theorem skip_buildDomTree (vw vh : Int) (d : ElemData) (sh : ShadowOpt) (ct : ContentOpt)
    (cs : DomForest) (xp : String) (st : ModuleState) (hsk : skipElem d = true) :
    buildDomTree vw vh (.elem d sh ct cs) xp st = (none, st) := by
  by_cases h1 : d.idAttr == HIGHLIGHT_CONTAINER_ID
  · cases sh with
    | noShadow => rw [buildDomTree_elem_noShadow, if_pos h1]
    | withShadow roots => rw [buildDomTree_elem_shadow, if_pos h1]
  · have h2 : isElementAccepted d = false := by simpa [skipElem, h1] using hsk
    cases sh with
    | noShadow =>
      rw [buildDomTree_elem_noShadow, if_neg (by simp [h1]), if_pos (by simp [h2])]
    | withShadow roots =>
      rw [buildDomTree_elem_shadow, if_neg (by simp [h1]), if_pos (by simp [h2])]

theorem skip_cntI (vw vh : Int) (d : ElemData) (sh : ShadowOpt) (ct : ContentOpt)
    (cs : DomForest) (hsk : skipElem d = true) : cntI vw vh (.elem d sh ct cs) = 0 := by
  cases sh with
  | noShadow => rw [cntI_elem_noShadow, if_pos hsk]
  | withShadow roots => rw [cntI_elem_shadow, if_pos hsk]

theorem skip_cntA (d : ElemData) (sh : ShadowOpt) (ct : ContentOpt)
    (cs : DomForest) (hsk : skipElem d = true) : cntA (.elem d sh ct cs) = 0 := by
  cases sh with
  | noShadow => rw [cntA_elem_noShadow, if_pos hsk]
  | withShadow roots => rw [cntA_elem_shadow, if_pos hsk]

theorem skip_cntSucc (vw vh : Int) (d : ElemData) (sh : ShadowOpt) (ct : ContentOpt)
    (cs : DomForest) (hsk : skipElem d = true) : cntSucc vw vh (.elem d sh ct cs) = 0 := by
  cases sh with
  | noShadow => rw [cntSucc_elem_noShadow, if_pos hsk]
  | withShadow roots => rw [cntSucc_elem_shadow, if_pos hsk]

theorem skip_recs (vw vh : Int) (d : ElemData) (sh : ShadowOpt) (ct : ContentOpt)
    (cs : DomForest) (xp : String) (h0 id0 : Nat) (hsk : skipElem d = true) :
    recs vw vh (.elem d sh ct cs) xp h0 id0 = [] := by
  cases sh with
  | noShadow => rw [recs_elem_noShadow, if_pos hsk]
  | withShadow roots => rw [recs_elem_shadow, if_pos hsk]

theorem buildElemCore (vw vh : Int) (d : ElemData) (xp : String) (st : ModuleState)
    (walkSt : ModuleState) (crecs : Nat → Nat → List (Nat × NodeData))
    (cI cA cS : Nat)
    (hwalk : walkSt.highlightIndex = (classifyNode vw vh d st).2.highlightIndex + cI
      ∧ walkSt.idCurrent = (classifyNode vw vh d st).2.idCurrent + cA
      ∧ walkSt.domHashMap = writeList (classifyNode vw vh d st).2.domHashMap
          (crecs (classifyNode vw vh d st).2.highlightIndex
            (classifyNode vw vh d st).2.idCurrent)
      ∧ containerLen walkSt = containerLen (classifyNode vw vh d st).2 + cS)
    (hlen : ∀ a b, (crecs a b).length = cA) :
    (walkSt.highlightIndex
        = st.highlightIndex + ((if selfInteractive vw vh d then 1 else 0) + cI))
    ∧ (walkSt.idCurrent + 1 = st.idCurrent + (1 + cA))
    ∧ (mapSet walkSt.domHashMap walkSt.idCurrent
        { tagName := lowerStr d.tagName, xpath := xp,
          isVisible := (classifyNode vw vh d st).1.1,
          isTopElement := (classifyNode vw vh d st).1.2.1,
          isInteractive := (classifyNode vw vh d st).1.2.2.1,
          highlightIndex := (classifyNode vw vh d st).1.2.2.2, children := [] }
        = writeList st.domHashMap
            (crecs (st.highlightIndex + (if selfInteractive vw vh d then 1 else 0))
                st.idCurrent
              ++ [(st.idCurrent
                    + (crecs (st.highlightIndex
                        + (if selfInteractive vw vh d then 1 else 0)) st.idCurrent).length,
                  { tagName := lowerStr d.tagName, xpath := xp, isVisible := visiblePure d,
                    isTopElement := (classifyFlags vw vh d st.highlightIndex).1,
                    isInteractive := (classifyFlags vw vh d st.highlightIndex).2.1,
                    highlightIndex := (classifyFlags vw vh d st.highlightIndex).2.2,
                    children := [] })]))
    ∧ (containerLen walkSt
        = containerLen st + ((if selfDrawn vw vh d then 1 else 0) + cS)) := by
  obtain ⟨hw1, hw2, hw3, hw4⟩ := hwalk
  refine ⟨?_, ?_, ?_, ?_⟩
  · rw [hw1, classify_hI]
    omega
  · rw [hw2, classify_idC]
    omega
  · rw [hw3, hw2, classify_map, classify_idC, classify_hI, classify_flags1, hlen,
      writeList_append]
    rfl
  · rw [hw4, classify_clen]
    omega

end AdvancedHighlighter

namespace AdvancedHighlighter

theorem bCaseOther (vw vh : Int) : nodeP vw vh .other := by
  intro xp st
  rw [buildDomTree_other_def]
  exact ⟨by simp [cntI_other], by simp [cntA_other],
    by simp [recs_other, writeList_nil], by simp [cntSucc_other]⟩

theorem bCaseElem (vw vh : Int) (d : ElemData) (sh : ShadowOpt) (ct : ContentOpt)
    (cs : DomForest) (ihSh : shadowP vw vh sh) (ihCt : contentP vw vh ct)
    (ihCs : forestP vw vh cs) : nodeP vw vh (.elem d sh ct cs) := by
  intro xp st
  by_cases hsk : skipElem d
  · rw [skip_buildDomTree vw vh d sh ct cs xp st hsk, skip_cntI vw vh d sh ct cs hsk,
      skip_cntA d sh ct cs hsk, skip_cntSucc vw vh d sh ct cs hsk,
      skip_recs vw vh d sh ct cs xp st.highlightIndex st.idCurrent hsk]
    exact ⟨by simp, by simp, by simp [writeList_nil], by simp⟩
  · have h1 : (d.idAttr == HIGHLIGHT_CONTAINER_ID) = false := by
      by_contra hc
      apply hsk
      simp only [Bool.not_eq_false] at hc
      simp [skipElem, hc]
    have h2 : isElementAccepted d = true := by
      by_contra hc
      apply hsk
      simp only [Bool.not_eq_true] at hc
      simp [skipElem, hc]
    cases sh with
    | noShadow =>
      rw [buildDomTree_elem_noShadow, if_neg (by simp [h1]), if_neg (by simp [h2]),
        cntI_elem_noShadow, if_neg hsk, cntA_elem_noShadow, if_neg hsk,
        cntSucc_elem_noShadow, if_neg hsk, recs_elem_noShadow, if_neg hsk]
      dsimp only
      by_cases hif : lowerStr d.tagName == "iframe"
      · rw [if_pos hif, if_pos hif, if_pos hif, if_pos hif, if_pos hif]
        exact buildElemCore vw vh d xp st
          (buildDomContent vw vh ct (classifyNode vw vh d st).2)
          (recsContent vw vh ct) (cntIContent vw vh ct) (cntAContent ct)
          (cntSuccContent vw vh ct) (ihCt (classifyNode vw vh d st).2)
          (recsContent_length vw vh ct)
      · rw [if_neg hif, if_neg hif, if_neg hif, if_neg hif, if_neg hif]
        exact buildElemCore vw vh d xp st
          (buildDomChildren vw vh cs xp [] (classifyNode vw vh d st).2)
          (recsChildren vw vh cs xp []) (cntIList vw vh cs) (cntAList cs)
          (cntSuccList vw vh cs) (ihCs.2 xp [] (classifyNode vw vh d st).2)
          (recsChildren_length vw vh cs xp [])
    | withShadow roots =>
      have ihR : forestP vw vh roots := ihSh
      rw [buildDomTree_elem_shadow, if_neg (by simp [h1]), if_neg (by simp [h2]),
        cntI_elem_shadow, if_neg hsk, cntA_elem_shadow, if_neg hsk,
        cntSucc_elem_shadow, if_neg hsk, recs_elem_shadow, if_neg hsk]
      dsimp only
      by_cases hif : lowerStr d.tagName == "iframe"
      · rw [if_pos hif, if_pos hif, if_pos hif, if_pos hif, if_pos hif]
        exact buildElemCore vw vh d xp st
          (buildDomContent vw vh ct (classifyNode vw vh d st).2)
          (recsContent vw vh ct) (cntIContent vw vh ct) (cntAContent ct)
          (cntSuccContent vw vh ct) (ihCt (classifyNode vw vh d st).2)
          (recsContent_length vw vh ct)
      · rw [if_neg hif, if_neg hif, if_neg hif, if_neg hif, if_neg hif]
        exact buildElemCore vw vh d xp st
          (buildDomShadow vw vh roots (classifyNode vw vh d st).2)
          (recsShadow vw vh roots) (cntIList vw vh roots) (cntAList roots)
          (cntSuccList vw vh roots) (ihR.1 (classifyNode vw vh d st).2)
          (recsShadow_length vw vh roots)

theorem bCaseNoShadow (vw vh : Int) : shadowP vw vh .noShadow := trivial

theorem bCaseWithShadow (vw vh : Int) (roots : DomForest)
    (ih : forestP vw vh roots) : shadowP vw vh (.withShadow roots) := ih

theorem bCaseNoDoc (vw vh : Int) : contentP vw vh .noDoc := by
  intro st
  rw [buildDomContent_noDoc]
  exact ⟨by simp [cntIContent_noDoc], by simp [cntAContent_noDoc],
    by simp [recsContent_noDoc, writeList_nil], by simp [cntSuccContent_noDoc]⟩

theorem bCaseWithBody (vw vh : Int) (b : DomNode) (ih : nodeP vw vh b) :
    contentP vw vh (.withBody b) := fun st => ih "html/body" st

theorem bCaseNil (vw vh : Int) : forestP vw vh .nil := by
  constructor
  · intro st
    rw [buildDomShadow_nil]
    exact ⟨by simp [cntIList_nil], by simp [cntAList_nil],
      by simp [recsShadow_nil, writeList_nil], by simp [cntSuccList_nil]⟩
  · intro pp seen st
    rw [buildDomChildren_nil]
    exact ⟨by simp [cntIList_nil], by simp [cntAList_nil],
      by simp [recsChildren_nil, writeList_nil], by simp [cntSuccList_nil]⟩

theorem bCaseCons (vw vh : Int) (hd : DomNode) (tl : DomForest)
    (ihHd : nodeP vw vh hd) (ihTl : forestP vw vh tl) :
    forestP vw vh (.cons hd tl) := by
  constructor
  · intro st
    have hc := ihHd "" st
    have hrest := ihTl.1 (buildDomTree vw vh hd "" st).2
    rw [buildDomShadow_cons, cntIList_cons, cntAList_cons, cntSuccList_cons,
      recsShadow_cons, recs_length]
    refine ⟨?_, ?_, ?_, ?_⟩
    · rw [hrest.1, hc.1]; omega
    · rw [hrest.2.1, hc.2.1]; omega
    · rw [hrest.2.2.1, hc.2.2.1, hc.1, hc.2.1, writeList_append]
    · rw [hrest.2.2.2, hc.2.2.2]; omega
  · intro pp seen st
    cases hd with
    | other =>
      rw [buildDomChildren_cons_other, cntIList_cons, cntI_other, cntAList_cons,
        cntA_other, cntSuccList_cons, cntSucc_other, recsChildren_cons_other]
      simpa using ihTl.2 pp seen st
    | elem d sh2 ct2 cs2 =>
      have hc := ihHd (joinPath pp (xpathSegment d.tagName (seen.count d.tagName))) st
      have hrest := ihTl.2 pp (seen ++ [d.tagName])
        (buildDomTree vw vh (.elem d sh2 ct2 cs2)
          (joinPath pp (xpathSegment d.tagName (seen.count d.tagName))) st).2
      rw [buildDomChildren_cons_elem, cntIList_cons, cntAList_cons, cntSuccList_cons,
        recsChildren_cons_elem, recs_length]
      refine ⟨?_, ?_, ?_, ?_⟩
      · rw [hrest.1, hc.1]; omega
      · rw [hrest.2.1, hc.2.1]; omega
      · rw [hrest.2.2.1, hc.2.2.1, hc.1, hc.2.1, writeList_append]
      · rw [hrest.2.2.2, hc.2.2.2]; omega

theorem nodeP_all (vw vh : Int) : ∀ n : DomNode, nodeP vw vh n :=
  @DomNode.rec (nodeP vw vh) (shadowP vw vh) (contentP vw vh) (forestP vw vh)
    (fun d sh ct cs ihs ihc ihf => bCaseElem vw vh d sh ct cs ihs ihc ihf)
    (bCaseOther vw vh)
    (bCaseNoShadow vw vh)
    (fun roots ihr => bCaseWithShadow vw vh roots ihr)
    (bCaseNoDoc vw vh)
    (fun b ihb => bCaseWithBody vw vh b ihb)
    (bCaseNil vw vh)
    (fun hd tl ihh iht => bCaseCons vw vh hd tl ihh iht)

end AdvancedHighlighter

namespace AdvancedHighlighter

theorem writeList_lookup_self (l : List (Nat × NodeData)) :
    ∀ (m : List (Nat × NodeData)) (p : Nat × NodeData), p ∈ l → (l.map Prod.fst).Nodup →
      (writeList m l).lookup p.1 = some p.2 := by
  induction l with
  | nil => intro m p h _; cases h
  | cons q t ih =>
    intro m p hmem hnd
    rw [List.map_cons, List.nodup_cons] at hnd
    rw [writeList_cons]
    rcases List.mem_cons.mp hmem with rfl | hmem'
    · rw [writeList_lookup_not_mem t _ p.1 hnd.1, mapSet_lookup_self]
    · exact ih _ p hmem' hnd.2

theorem scanRecords_keys (page : Page) (o : HighlightOptions) :
    (scanRecords page o).map Prod.fst = List.range' 0 (cntA (startOf page o).1) :=
  (recsNodeP_all page.vw page.vh (startOf page o).1 (startOf page o).2 0 0).1

theorem scanRecords_children (page : Page) (o : HighlightOptions) :
    ∀ p ∈ scanRecords page o, p.2.children = ([] : List Nat) :=
  (recsNodeP_all page.vw page.vh (startOf page o).1 (startOf page o).2 0 0).2.1

theorem scanRecords_perm (page : Page) (o : HighlightOptions) :
    ((scanRecords page o).filterMap (fun p => p.2.highlightIndex)).Perm
      (List.range' 0 (cntI page.vw page.vh (startOf page o).1)) :=
  (recsNodeP_all page.vw page.vh (startOf page o).1 (startOf page o).2 0 0).2.2

theorem scanRecords_nodup (page : Page) (o : HighlightOptions) :
    ((scanRecords page o).map Prod.fst).Nodup := by
  rw [scanRecords_keys]
  exact List.nodup_range' 0 (cntA (startOf page o).1)

theorem scan_spec (page : Page) (o : HighlightOptions) (st : ModuleState) :
    (findAndHighlightInteractiveElements page o st).1
        = cntI page.vw page.vh (startOf page o).1
    ∧ (findAndHighlightInteractiveElements page o st).2.idCurrent
        = cntA (startOf page o).1
    ∧ (findAndHighlightInteractiveElements page o st).2.domHashMap
        = writeList st.domHashMap (scanRecords page o)
    ∧ containerLen (findAndHighlightInteractiveElements page o st).2
        = cntSucc page.vw page.vh (startOf page o).1 := by
  obtain ⟨h1, h2, h3, h4⟩ := nodeP_all page.vw page.vh (startOf page o).1 (startOf page o).2
    { highlightIndex := 0, idCurrent := 0, domHashMap := st.domHashMap,
      rectCache := [], styleCache := [], container := none }
  unfold findAndHighlightInteractiveElements removeAllHighlights
  dsimp only
  refine ⟨?_, ?_, ?_, ?_⟩
  · simpa using h1
  · simpa using h2
  · simpa [scanRecords] using h3
  · simpa [containerLen] using h4

end AdvancedHighlighter

namespace AdvancedHighlighter

/-- C1 (amended): any exception thrown while drawing an element's overlay is
caught, but the element's highlight index has already been advanced
(`nodeData.highlightIndex = highlightIndex++` happens before
`highlightElement`, whose return value the caller discards), so
`findAndHighlightInteractiveElements` returns the number of elements
classified interactive, while the number of overlays actually drawn —
`cntSucc`, which omits the throwing elements — only governs the overlay
container. -/
theorem scan_count_spec (page : Page) (o : HighlightOptions) (st : ModuleState) :
    (findAndHighlightInteractiveElements page o st).1
        = cntI page.vw page.vh (startOf page o).1
    ∧ containerLen (findAndHighlightInteractiveElements page o st).2
        = cntSucc page.vw page.vh (startOf page o).1 :=
  ⟨(scan_spec page o st).1, (scan_spec page o st).2.2.2⟩

/-- C1 counterexample: on a page whose only interactive element throws while
its overlay is drawn, the scan returns 1 — the number classified
interactive — although 0 elements were successfully highlighted, and the
element's record keeps the consumed index 0. -/
theorem throwing_overlay_still_counted :
    (findAndHighlightInteractiveElements pageThrowingButton defaultOptions initState).1 = 1
    ∧ containerLen
        (findAndHighlightInteractiveElements pageThrowingButton defaultOptions initState).2 = 0
    ∧ (findAndHighlightInteractiveElements pageThrowingButton defaultOptions
          initState).2.domHashMap.lookup 0
        = some { tagName := "button", xpath := "html/body/button", isVisible := true,
                 isTopElement := some true, isInteractive := some true,
                 highlightIndex := some 0, children := [] } := by
  refine ⟨by decide, by decide, by decide⟩

/-- C2 (amended): `findAndHighlightInteractiveElements` resets the
highlight-index counter, the node-id counter, both cache WeakMaps and the
overlay container before scanning — so its result depends on the previous
state only through `DOM_HASH_MAP` — but it never clears `DOM_HASH_MAP`
itself: the scan overwrites only the keys it produces (`0 .. cntA − 1`),
and a record of an earlier scan stored under any higher key survives
unchanged. -/
theorem scan_reset_spec (page : Page) (o : HighlightOptions) (st st' : ModuleState)
    (hmap : st'.domHashMap = st.domHashMap) (k : Nat)
    (hk : cntA (startOf page o).1 ≤ k) :
    findAndHighlightInteractiveElements page o st'
        = findAndHighlightInteractiveElements page o st
    ∧ (findAndHighlightInteractiveElements page o st).2.domHashMap.lookup k
        = st.domHashMap.lookup k := by
  constructor
  · unfold findAndHighlightInteractiveElements removeAllHighlights
    dsimp only
    rw [hmap]
  · rw [(scan_spec page o st).2.2.1]
    apply writeList_lookup_not_mem
    rw [scanRecords_keys]
    intro hc
    have h := List.mem_range'_1.mp hc
    omega

/-- C2 witness: on the body-only page, key 5 is beyond the single record the
scan writes, and a state with the same map yields the identical result. -/
theorem scan_reset_spec_witness :
    initState.domHashMap = initState.domHashMap
    ∧ cntA (startOf pageBodyOnly defaultOptions).1 ≤ 5
    ∧ (findAndHighlightInteractiveElements pageBodyOnly defaultOptions initState
          = findAndHighlightInteractiveElements pageBodyOnly defaultOptions initState
      ∧ (findAndHighlightInteractiveElements pageBodyOnly defaultOptions
            initState).2.domHashMap.lookup 5
          = initState.domHashMap.lookup 5) :=
  ⟨rfl, by decide,
    scan_reset_spec pageBodyOnly defaultOptions initState initState rfl 5 (by decide)⟩

/-- C2 counterexample: scan a body with one div (records 0 and 1), then
re-scan after the div is gone.  The second scan created only record 0
(`ID.current` ends at 1), yet key 1 still holds the first scan's record:
a record from an earlier scan survives into the mapping observed after the
new scan. -/
theorem stale_record_survives_rescan :
    ((findAndHighlightInteractiveElements pageBodyOnly defaultOptions
        (findAndHighlightInteractiveElements pageBodyWithDiv defaultOptions
          initState).2).2.idCurrent = 1)
    ∧ ((findAndHighlightInteractiveElements pageBodyOnly defaultOptions
        (findAndHighlightInteractiveElements pageBodyWithDiv defaultOptions
          initState).2).2.domHashMap.lookup 1
      = some { tagName := "body", xpath := "html/body", isVisible := true,
               isTopElement := some true, isInteractive := some false,
               highlightIndex := none, children := [] }) := by
  refine ⟨by decide, by decide⟩

/-- C3 (amended): every accepted element gets a record keyed by the
independently incrementing `ID.current`, capturing its lowercased tag name
and boundary XPath — but the record's `children` field is always the empty
array the code initialises it to: child record ids are never collected, so
no record lists its children's ids. -/
theorem records_children_empty (page : Page) (o : HighlightOptions) (st : ModuleState)
    (hstart : st.domHashMap = []) (k : Nat) (v : NodeData)
    (hlook : (findAndHighlightInteractiveElements page o st).2.domHashMap.lookup k
      = some v) :
    v.children = ([] : List Nat) := by
  rw [(scan_spec page o st).2.2.1, hstart] at hlook
  rcases writeList_lookup_cases _ _ _ _ hlook with h | h
  · exact scanRecords_children page o _ h
  · simp at h

/-- C3 witness: the body-only scan's record 0 has an empty children list. -/
theorem records_children_empty_witness :
    initState.domHashMap = []
    ∧ (findAndHighlightInteractiveElements pageBodyOnly defaultOptions
          initState).2.domHashMap.lookup 0
        = some { tagName := "body", xpath := "html/body", isVisible := true,
                 isTopElement := some true, isInteractive := some false,
                 highlightIndex := none, children := [] }
    ∧ ({ tagName := "body", xpath := "html/body", isVisible := true,
         isTopElement := some true, isInteractive := some false,
         highlightIndex := none, children := [] } : NodeData).children = ([] : List Nat) :=
  ⟨rfl, by decide,
    records_children_empty pageBodyOnly defaultOptions initState rfl 0 _ (by decide)⟩

/-- C3 counterexample: the body element's accepted `div` child gets record
id 0, yet the body's own record (id 1) carries `children = []`, not
`[0]` — the children field does not contain the children's record ids. -/
theorem child_record_id_not_collected :
    ((findAndHighlightInteractiveElements pageBodyWithDiv defaultOptions
        initState).2.domHashMap.lookup 0
      = some { tagName := "div", xpath := "html/body/div", isVisible := true,
               isTopElement := some true, isInteractive := some false,
               highlightIndex := none, children := [] })
    ∧ ((findAndHighlightInteractiveElements pageBodyWithDiv defaultOptions
        initState).2.domHashMap.lookup 1
      = some { tagName := "body", xpath := "html/body", isVisible := true,
               isTopElement := some true, isInteractive := some false,
               highlightIndex := none, children := [] }) := by
  refine ⟨by decide, by decide⟩

/-- C7: on an unchanged page, `removeAllHighlights()` followed by a re-scan
is deterministic: the re-scan returns the same count, every record of the
scan — identified by its id key — is stored identically after both scans
(so every interactive element keeps the same `highlightIndex`), and the
indices assigned within one scan are exactly `0 .. count − 1` (dense and
zero-based, following the pre-order visitation the record list `recs`
mirrors). -/
theorem rescan_deterministic (page : Page) (o : HighlightOptions) (st : ModuleState) :
    (findAndHighlightInteractiveElements page o
        (removeAllHighlights (findAndHighlightInteractiveElements page o st).2)).1
      = (findAndHighlightInteractiveElements page o st).1
    ∧ (∀ p ∈ scanRecords page o,
        (findAndHighlightInteractiveElements page o st).2.domHashMap.lookup p.1 = some p.2
        ∧ (findAndHighlightInteractiveElements page o
            (removeAllHighlights (findAndHighlightInteractiveElements page o
              st).2)).2.domHashMap.lookup p.1 = some p.2)
    ∧ ((scanRecords page o).filterMap (fun p => p.2.highlightIndex)).Perm
        (List.range' 0 (findAndHighlightInteractiveElements page o st).1) := by
  refine ⟨?_, ?_, ?_⟩
  · rw [(scan_spec page o _).1, (scan_spec page o st).1]
  · intro p hp
    constructor
    · rw [(scan_spec page o st).2.2.1]
      exact writeList_lookup_self _ _ p hp (scanRecords_nodup page o)
    · rw [(scan_spec page o _).2.2.1]
      exact writeList_lookup_self _ _ p hp (scanRecords_nodup page o)
  · rw [(scan_spec page o st).1]
    exact scanRecords_perm page o

/-- C7 witness: the div record of the body-with-div page is stored
identically after the first scan and after the remove-and-re-scan. -/
theorem rescan_deterministic_witness :
    ((0, { tagName := "div", xpath := "html/body/div", isVisible := true,
           isTopElement := some true, isInteractive := some false,
           highlightIndex := none, children := [] }) ∈
        scanRecords pageBodyWithDiv defaultOptions)
    ∧ ((findAndHighlightInteractiveElements pageBodyWithDiv defaultOptions
          initState).2.domHashMap.lookup 0
        = some { tagName := "div", xpath := "html/body/div", isVisible := true,
                 isTopElement := some true, isInteractive := some false,
                 highlightIndex := none, children := [] }
      ∧ (findAndHighlightInteractiveElements pageBodyWithDiv defaultOptions
          (removeAllHighlights (findAndHighlightInteractiveElements pageBodyWithDiv
            defaultOptions initState).2)).2.domHashMap.lookup 0
        = some { tagName := "div", xpath := "html/body/div", isVisible := true,
                 isTopElement := some true, isInteractive := some false,
                 highlightIndex := none, children := [] }) :=
  ⟨by decide,
    (rescan_deterministic pageBodyWithDiv defaultOptions initState).2.1
      (0, { tagName := "div", xpath := "html/body/div", isVisible := true,
            isTopElement := some true, isInteractive := some false,
            highlightIndex := none, children := [] }) (by decide)⟩

end AdvancedHighlighter
